import Mathlib

/-!
Verification of the avecta-survey query-understanding, filtering, analysis and
response-arbitration pipeline.

The JavaScript source is embedded shallowly:
* JS strings become `JStr := List Char`; `String.prototype.includes` becomes
  `containsSub`, `toLowerCase` becomes `jsToLower` (covering the Latin letters
  used by the keyword tables), and the `normalize('NFD')` +
  diacritic-stripping + lower-casing idiom becomes `normalizeJS`.
* JS numbers used by the decision logic (confidence scores, averages, rates)
  are modelled as rationals `ℚ`; `Number.prototype.toFixed(2)` followed by
  `Number(...)` is modelled as exact decimal rounding `round2`.
* `undefined`/optional-chaining is modelled with `Option`.
-/

/-- A JavaScript string, as a list of characters. -/
abbrev JStr := List Char

/-- `leadsWith pat s` : `pat` is a prefix of `s` (character-by-character). -/
def leadsWith : JStr → JStr → Bool
  | [], _ => true
  | _ :: _, [] => false
  | a :: as, b :: bs => a == b && leadsWith as bs

/-- JS `s.includes(sub)` : `sub` occurs contiguously inside `s`. -/
def containsSub : JStr → JStr → Bool
  | _, [] => true
  | [], _ :: _ => false
  | a :: as, sub => leadsWith sub (a :: as) || containsSub as sub

/-- JS `String.prototype.toLowerCase`, restricted to the Latin letters that the
source's keyword tables and the test fixtures use. -/
def jsToLower (c : Char) : Char :=
  if 65 ≤ c.toNat ∧ c.toNat ≤ 90 then Char.ofNat (c.toNat + 32)
  else if c = 'Á' then 'á' else if c = 'À' then 'à'
  else if c = 'Â' then 'â' else if c = 'Ã' then 'ã'
  else if c = 'É' then 'é' else if c = 'È' then 'è' else if c = 'Ê' then 'ê'
  else if c = 'Í' then 'í' else if c = 'Ì' then 'ì' else if c = 'Î' then 'î'
  else if c = 'Ó' then 'ó' else if c = 'Ò' then 'ò'
  else if c = 'Ô' then 'ô' else if c = 'Õ' then 'õ'
  else if c = 'Ú' then 'ú' else if c = 'Ù' then 'ù' else if c = 'Û' then 'û'
  else if c = 'Ç' then 'ç'
  else c

/-- NFD decomposition followed by removal of `\p{Diacritic}` marks, for the
lower-case Latin letters used by the source. -/
def stripDiacritic (c : Char) : Char :=
  if c = 'á' ∨ c = 'à' ∨ c = 'â' ∨ c = 'ã' then 'a'
  else if c = 'é' ∨ c = 'è' ∨ c = 'ê' then 'e'
  else if c = 'í' ∨ c = 'ì' ∨ c = 'î' then 'i'
  else if c = 'ó' ∨ c = 'ò' ∨ c = 'ô' ∨ c = 'õ' then 'o'
  else if c = 'ú' ∨ c = 'ù' ∨ c = 'û' then 'u'
  else if c = 'ç' then 'c'
  else c

/-- The source's normalization idiom
`s.normalize('NFD').replace(/\p{Diacritic}/gu, '').toLowerCase()`:
on the Latin repertoire in use, this is diacritic-stripping after
lower-casing each character. -/
def normalizeJS (s : JStr) : JStr := s.map (fun c => stripDiacritic (jsToLower c))

/-- JS whitespace test for `split(/\s+/)` and `trim()`. -/
def isWsChar (c : Char) : Bool := c == ' ' || c == '\t' || c == '\n' || c == '\r'

/-- JS `query.split(/\s+/)`, keeping only the non-empty chunks (every consumer
in the source filters the empty chunks out immediately). -/
def jsSplitWs (s : JStr) : List JStr :=
  (List.splitOnP isWsChar s).filter (fun w => !w.isEmpty)

/-- JS `String.prototype.trim`. -/
def jsTrim (s : JStr) : JStr :=
  ((s.dropWhile isWsChar).reverse.dropWhile isWsChar).reverse

/-- `Number(x.toFixed(2))` on an exact rational: round to 2 decimal places. -/
def round2 (q : ℚ) : ℚ := (round (q * 100) : ℤ) / 100

namespace Orchestrator

/-- A resident entry as projected by the filter service (only the `name`
field is consulted by the arbitration and confidence logic). -/
structure Resident where
  name : JStr
deriving DecidableEq, Repr

/-- `agentResult.analysis` : the deterministic candidate produced by the routed
agent (`type`, `summary`, `residents` are the fields the orchestrator reads). -/
structure AgentAnalysis where
  type : Option JStr
  summary : Option JStr
  residents : List Resident
deriving DecidableEq, Repr

/-- `agentResult` as consumed by `constructFinalResponse`/`calculateConfidence`. -/
structure AgentResult where
  analysis : Option AgentAnalysis
deriving DecidableEq, Repr

/-- `llmResult.quality` (the `level` is a plain string in the source). -/
structure LLMQuality where
  level : JStr
deriving DecidableEq, Repr

/-- `llmResult` : the LLM candidate (`response` text plus optional quality). -/
structure LLMResult where
  response : JStr
  quality : Option LLMQuality
deriving DecidableEq, Repr

/-- `agentResult.analysis?.residents`, with optional chaining defaulted to `[]`. -/
def residentsOf (a : AgentResult) : List Resident :=
  (a.analysis.map (fun x => x.residents)).getD []

/-- `llmResult?.quality?.level`. -/
def qualityLevelOf (l : Option LLMResult) : Option JStr :=
  (l.bind (fun x => x.quality)).map (fun q => q.level)

/-- The string `'excellent'`. -/
def sExcellent : JStr := "excellent".toList

/-- The string `'good'`. -/
def sGood : JStr := "good".toList

/-- `calculateConfidence(agentResult, llmResult)` from `orchestrator.js`:
base 0.7, +0.15 when at least one resident was found, +0.10 for `excellent`
LLM quality (+0.05 for `good`), capped with `Math.min(confidence, 0.95)`. -/
def calculateConfidence (agentResult : AgentResult) (llmResult : Option LLMResult) : ℚ :=
  let confidence : ℚ := 7/10
  let confidence :=
    if 0 < (residentsOf agentResult).length then confidence + 15/100 else confidence
  let confidence :=
    if qualityLevelOf llmResult = some sExcellent then confidence + 1/10
    else if qualityLevelOf llmResult = some sGood then confidence + 5/100
    else confidence
  min confidence (95/100)

/-- The resident bonus of the confidence formula, as the spec states it. -/
def residentBonus (a : AgentResult) : ℚ :=
  if 0 < (residentsOf a).length then 15/100 else 0

/-- The LLM-quality bonus of the confidence formula, as the spec states it. -/
def qualityBonus (l : Option LLMResult) : ℚ :=
  if qualityLevelOf l = some sExcellent then 1/10
  else if qualityLevelOf l = some sGood then 5/100
  else 0

/-- Which candidate `constructFinalResponse` selected (`responseQuality`). -/
inductive ResponseQualityTag where
  | dataDriven
  | focusedSearch
  | llmEnhanced
deriving DecidableEq, Repr

/-- The string `'name_search'`. -/
def sNameSearch : JStr := "name_search".toList

/-- The string `'name_search_result'`. -/
def sNameSearchResult : JStr := "name_search_result".toList

/-- The fallback text `'Analysis completed'`. -/
def defaultSummary : JStr := "Analysis completed".toList

/-- JS `s || d` for an optional string `s` (both `undefined` and the empty
string are falsy). -/
def jsOrStr (s : Option JStr) (d : JStr) : JStr :=
  match s with
  | some t => if t.isEmpty then d else t
  | none => d

/-- `queryAnalysis.dataNeeds?.includes('name_search') || false`. -/
def isNameSearchOf (dataNeeds : Option (List JStr)) : Bool :=
  (dataNeeds.map (fun l => l.contains sNameSearch)).getD false

/-- The grounding check of `constructFinalResponse`:
`agentResult.analysis?.residents?.some(r => llmResult.response.includes(r.name))`. -/
def hasRealData (agentResult : AgentResult) (llm : LLMResult) : Bool :=
  (residentsOf agentResult).any (fun r => containsSub llm.response r.name)

/-- The outcome of response arbitration: the chosen `primaryResponse`
(`none` models JS `undefined`) and the `responseQuality` tag. -/
structure PrimarySelection where
  response : Option JStr
  tag : ResponseQualityTag
deriving DecidableEq, Repr

/-- The arbitration core of `constructFinalResponse` (orchestrator.js):
chooses between the deterministic agent summary and the LLM text.
`3 * d < 2 * l` renders the JS test `l > d * 1.5` on exact numbers. -/
def selectPrimaryResponse (isNameSearch : Bool) (agentResult : AgentResult)
    (llmResult : Option LLMResult) : PrimarySelection :=
  let primary0 : JStr := jsOrStr (agentResult.analysis.bind (fun a => a.summary)) defaultSummary
  if isNameSearch ∧ (agentResult.analysis.bind (fun a => a.type)) = some sNameSearchResult then
    { response := agentResult.analysis.bind (fun a => a.summary), tag := .focusedSearch }
  else
    match llmResult with
    | some llm =>
      if qualityLevelOf (some llm) = some sExcellent ∨ qualityLevelOf (some llm) = some sGood then
        let hrd := hasRealData agentResult llm
        if isNameSearch then
          if hrd = true ∧ llm.response.length < 500 then
            { response := some llm.response, tag := .llmEnhanced }
          else
            { response := some (jsOrStr (agentResult.analysis.bind (fun a => a.summary)) primary0),
              tag := .focusedSearch }
        else
          if hrd = true ∨ 3 * primary0.length < 2 * llm.response.length then
            { response := some llm.response, tag := .llmEnhanced }
          else
            { response := some primary0, tag := .dataDriven }
      else
        if isNameSearch then
          if ¬ llm.response.isEmpty ∧ 0 < (jsTrim llm.response).length ∧
              llm.response.length < 500 then
            { response := some llm.response, tag := .llmEnhanced }
          else
            { response := some primary0, tag := .dataDriven }
        else
          { response := some primary0, tag := .dataDriven }
    | none => { response := some primary0, tag := .dataDriven }

end Orchestrator

namespace Orchestrator

/-- Rewriting `calculateConfidence` as the spec's closed formula. -/
theorem calculateConfidence_eq (a : AgentResult) (l : Option LLMResult) :
    calculateConfidence a l = min (95/100) (7/10 + residentBonus a + qualityBonus l) := by
  unfold calculateConfidence residentBonus qualityBonus
  split_ifs <;> simp [min_comm]

end Orchestrator

namespace Orchestrator

/-- C3: `calculateConfidence` returns exactly
`min(0.95, 0.70 + (0.15 if ≥1 resident) + (0.10 excellent / 0.05 good / 0))`;
it is monotone in the resident and quality bonuses (in particular adding a
resident match, or upgrading quality from `good` to `excellent`, never
decreases it), and it never exceeds 0.95. -/
theorem calculateConfidence_spec :
    ∀ (a : AgentResult) (l : Option LLMResult),
      calculateConfidence a l
        = min (95/100)
            ((7/10 : ℚ)
              + (if 0 < (residentsOf a).length then 15/100 else 0)
              + (if qualityLevelOf l = some sExcellent then 1/10
                 else if qualityLevelOf l = some sGood then 5/100 else 0))
      ∧ calculateConfidence a l ≤ 95/100
      ∧ (∀ (a' : AgentResult) (l' : Option LLMResult),
          residentBonus a ≤ residentBonus a' → qualityBonus l ≤ qualityBonus l' →
          calculateConfidence a l ≤ calculateConfidence a' l')
      ∧ (∀ (a' : AgentResult),
          (residentsOf a).length = 0 → 0 < (residentsOf a').length →
          calculateConfidence a l ≤ calculateConfidence a' l)
      ∧ (∀ (lg le : Option LLMResult),
          qualityLevelOf lg = some sGood → qualityLevelOf le = some sExcellent →
          calculateConfidence a lg ≤ calculateConfidence a le) := by
  intro a l
  have hmono : ∀ (a₁ a₂ : AgentResult) (l₁ l₂ : Option LLMResult),
      residentBonus a₁ ≤ residentBonus a₂ → qualityBonus l₁ ≤ qualityBonus l₂ →
      calculateConfidence a₁ l₁ ≤ calculateConfidence a₂ l₂ := by
    intro a₁ a₂ l₁ l₂ hr hq
    rw [calculateConfidence_eq, calculateConfidence_eq]
    exact min_le_min le_rfl (by linarith)
  refine ⟨?_, ?_, ?_, ?_, ?_⟩
  · rw [calculateConfidence_eq]
    unfold residentBonus qualityBonus
    split_ifs <;> norm_num
  · rw [calculateConfidence_eq]
    exact min_le_left _ _
  · intro a' l' hr hq
    exact hmono a a' l l' hr hq
  · intro a' h0 h1
    refine hmono a a' l l ?_ le_rfl
    unfold residentBonus
    rw [h0]
    split_ifs with h <;> norm_num
  · intro lg le hg he
    refine hmono a a lg le le_rfl ?_
    unfold qualityBonus
    rw [hg, he]
    have h1 : some sGood ≠ some sExcellent := by decide
    rw [if_neg h1, if_pos rfl, if_pos rfl]
    norm_num

/-- A concrete agent result with no analysis at all. -/
def cwAgent0 : AgentResult := { analysis := none }

/-- A concrete agent result with exactly one resident. -/
def cwAgent1 : AgentResult :=
  { analysis := some { type := none, summary := none, residents := [{ name := ['a'] }] } }

/-- A concrete LLM result of quality `good`. -/
def cwGood : Option LLMResult := some { response := [], quality := some { level := sGood } }

/-- A concrete LLM result of quality `excellent`. -/
def cwExc : Option LLMResult := some { response := [], quality := some { level := sExcellent } }

/-- Concrete instantiation of `calculateConfidence_spec`: the monotonicity
hypotheses are discharged at a no-resident/`good` input versus a
one-resident/`excellent` input, and the cap holds there. -/
theorem calculateConfidence_spec_witness :
    calculateConfidence cwAgent0 cwGood ≤ calculateConfidence cwAgent1 cwExc ∧
    calculateConfidence cwAgent1 cwExc ≤ 95/100 := by
  constructor
  · apply (calculateConfidence_spec cwAgent0 cwGood).2.2.1 cwAgent1 cwExc
    · rw [show residentBonus cwAgent0 = 0 from rfl,
        show residentBonus cwAgent1 = 15/100 from rfl]
      norm_num
    · rw [show qualityBonus cwGood = 5/100 from rfl,
        show qualityBonus cwExc = 1/10 from rfl]
      norm_num
  · exact (calculateConfidence_spec cwAgent1 cwExc).2.1

end Orchestrator

namespace Orchestrator

/-- `jsOrStr s (jsOrStr s d) = jsOrStr s d` : re-applying the JS
`summary || fallback` idiom with the previous result as fallback changes
nothing. -/
theorem jsOrStr_absorb (s : Option JStr) (d : JStr) : jsOrStr s (jsOrStr s d) = jsOrStr s d := by
  cases s with
  | none => rfl
  | some t =>
    by_cases h : t.isEmpty <;> simp [jsOrStr, h]

/-- On a name-search query with an `excellent`/`good` LLM candidate and no
`name_search_result` marker, arbitration reduces to the grounded-and-short
test. -/
theorem selectPrimary_nameSearch_quality (agent : AgentResult) (llm : LLMResult)
    (hq : qualityLevelOf (some llm) = some sExcellent ∨ qualityLevelOf (some llm) = some sGood)
    (hm : agent.analysis.bind (fun a => a.type) ≠ some sNameSearchResult) :
    selectPrimaryResponse true agent (some llm)
      = if hasRealData agent llm = true ∧ llm.response.length < 500
        then { response := some llm.response, tag := ResponseQualityTag.llmEnhanced }
        else { response := some (jsOrStr (agent.analysis.bind (fun a => a.summary)) defaultSummary),
               tag := ResponseQualityTag.focusedSearch } := by
  unfold selectPrimaryResponse
  rw [if_neg (fun hcon => hm hcon.2)]
  simp only
  rw [if_pos hq, if_pos trivial]
  by_cases hc : hasRealData agent llm = true ∧ llm.response.length < 500
  · rw [if_pos hc, if_pos hc]
  · rw [if_neg hc, if_neg hc, jsOrStr_absorb]

/-- C1: for a name-search query (dataNeeds contains `name_search`) whose LLM
candidate has quality `excellent` or `good` and whose deterministic candidate
does not carry the `name_search_result` marker, the LLM text is selected iff
it names at least one resident of the deterministic candidate AND is strictly
shorter than 500 characters; a grounded 600-character LLM candidate loses to
the deterministic text; and when the marker is present the deterministic
summary is chosen by default. -/
theorem nameSearch_arbitration_spec :
    (∀ (dn : Option (List JStr)) (agent : AgentResult) (llm : LLMResult),
      isNameSearchOf dn = true →
      (qualityLevelOf (some llm) = some sExcellent ∨ qualityLevelOf (some llm) = some sGood) →
      agent.analysis.bind (fun a => a.type) ≠ some sNameSearchResult →
      (((selectPrimaryResponse (isNameSearchOf dn) agent (some llm)).tag
          = ResponseQualityTag.llmEnhanced
        ↔ hasRealData agent llm = true ∧ llm.response.length < 500) ∧
       ((selectPrimaryResponse (isNameSearchOf dn) agent (some llm)).tag
          = ResponseQualityTag.llmEnhanced →
        (selectPrimaryResponse (isNameSearchOf dn) agent (some llm)).response
          = some llm.response) ∧
       (hasRealData agent llm = true → llm.response.length = 600 →
        (selectPrimaryResponse (isNameSearchOf dn) agent (some llm)).response
          = some (jsOrStr (agent.analysis.bind (fun a => a.summary)) defaultSummary))))
    ∧ (∀ (dn : Option (List JStr)) (agent : AgentResult) (llmResult : Option LLMResult),
        isNameSearchOf dn = true →
        agent.analysis.bind (fun a => a.type) = some sNameSearchResult →
        (selectPrimaryResponse (isNameSearchOf dn) agent llmResult).response
          = agent.analysis.bind (fun a => a.summary) ∧
        (selectPrimaryResponse (isNameSearchOf dn) agent llmResult).tag
          = ResponseQualityTag.focusedSearch) := by
  constructor
  · intro dn agent llm hNS hq hm
    rw [hNS]
    rw [selectPrimary_nameSearch_quality agent llm hq hm]
    refine ⟨?_, ?_, ?_⟩
    · split_ifs with hc <;> simp [hc]
    · intro htag
      by_cases hc : hasRealData agent llm = true ∧ llm.response.length < 500
      · rw [if_pos hc]
      · rw [if_neg hc] at htag
        exact absurd htag (by simp)
    · intro hrd h600
      have hno : ¬ (hasRealData agent llm = true ∧ llm.response.length < 500) := by
        intro hcon
        rw [h600] at hcon
        omega
      rw [if_neg hno]
  · intro dn agent llmResult hNS hm
    rw [hNS]
    unfold selectPrimaryResponse
    rw [if_pos ⟨rfl, hm⟩]
    exact ⟨rfl, rfl⟩

/-- Concrete dataNeeds list containing the `name_search` tag. -/
def c1dn : Option (List JStr) := some [sNameSearch]

/-- Concrete deterministic analysis: one resident named Ana, no marker. -/
def c1analysis : AgentAnalysis :=
  { type := none, summary := some ("Res: Ana".toList), residents := [{ name := "Ana".toList }] }

/-- Concrete agent result wrapping `c1analysis`. -/
def c1agent : AgentResult := { analysis := some c1analysis }

/-- Concrete grounded, short, `good`-quality LLM candidate. -/
def c1llm : LLMResult :=
  { response := "Ana mora no centro".toList, quality := some { level := sGood } }

/-- Concrete instantiation of `nameSearch_arbitration_spec`: the grounded and
short LLM candidate is selected for this name-search query. -/
theorem nameSearch_arbitration_spec_witness :
    (selectPrimaryResponse (isNameSearchOf c1dn) c1agent (some c1llm)).response
      = some c1llm.response := by
  have h := nameSearch_arbitration_spec.1 c1dn c1agent c1llm (by decide)
    (Or.inr (by decide)) (by decide)
  exact h.2.1 ((h.1).mpr ⟨by decide, by decide⟩)

end Orchestrator

namespace Orchestrator

/-- The deterministic candidate text: `agentResult.analysis?.summary || 'Analysis completed'`. -/
def deterministicText (agent : AgentResult) : JStr :=
  jsOrStr (agent.analysis.bind (fun a => a.summary)) defaultSummary

/-- C2 (amended): for a non-name-search query with an `excellent`/`good` LLM
candidate, the LLM text is selected iff it names a resident of the
deterministic candidate OR is STRICTLY longer than 1.5 times the
deterministic text (`l > 1.5 * d`, i.e. `3 * d < 2 * l`); at a length ratio
of exactly 1.5 the deterministic text is kept. -/
theorem general_arbitration_spec :
    ∀ (dn : Option (List JStr)) (agent : AgentResult) (llm : LLMResult),
      isNameSearchOf dn = false →
      (qualityLevelOf (some llm) = some sExcellent ∨ qualityLevelOf (some llm) = some sGood) →
      (((selectPrimaryResponse (isNameSearchOf dn) agent (some llm)).tag
          = ResponseQualityTag.llmEnhanced
        ↔ hasRealData agent llm = true
          ∨ 3 * (deterministicText agent).length < 2 * llm.response.length) ∧
       ((selectPrimaryResponse (isNameSearchOf dn) agent (some llm)).tag
          = ResponseQualityTag.llmEnhanced →
        (selectPrimaryResponse (isNameSearchOf dn) agent (some llm)).response
          = some llm.response) ∧
       ((selectPrimaryResponse (isNameSearchOf dn) agent (some llm)).tag
          ≠ ResponseQualityTag.llmEnhanced →
        (selectPrimaryResponse (isNameSearchOf dn) agent (some llm)).response
          = some (deterministicText agent))) := by
  intro dn agent llm hNS hq
  rw [hNS]
  have hsel : selectPrimaryResponse false agent (some llm)
      = if hasRealData agent llm = true
            ∨ 3 * (deterministicText agent).length < 2 * llm.response.length
        then { response := some llm.response, tag := ResponseQualityTag.llmEnhanced }
        else { response := some (deterministicText agent), tag := ResponseQualityTag.dataDriven } := by
    unfold selectPrimaryResponse deterministicText
    rw [if_neg (fun hcon => by exact absurd hcon.1 (by simp))]
    simp only
    rw [if_pos hq, if_neg (fun hcon => by exact absurd hcon (by simp))]
  rw [hsel]
  refine ⟨?_, ?_, ?_⟩
  · split_ifs with hc <;> simp [hc]
  · intro htag
    by_cases hc : hasRealData agent llm = true
        ∨ 3 * (deterministicText agent).length < 2 * llm.response.length
    · rw [if_pos hc]
    · rw [if_neg hc] at htag
      exact absurd htag (by simp)
  · intro htag
    by_cases hc : hasRealData agent llm = true
        ∨ 3 * (deterministicText agent).length < 2 * llm.response.length
    · rw [if_pos hc] at htag
      exact absurd rfl htag
    · rw [if_neg hc]

/-- Concrete deterministic analysis for the boundary counterexample:
summary "ab" (2 chars), one resident "Zu" that the LLM text will not name. -/
def c2analysis : AgentAnalysis :=
  { type := none, summary := some ("ab".toList), residents := [{ name := "Zu".toList }] }

/-- Concrete agent result wrapping `c2analysis`. -/
def c2agent : AgentResult := { analysis := some c2analysis }

/-- Concrete ungrounded `good`-quality LLM candidate of exactly 1.5 times the
deterministic length (3 chars vs 2 chars). -/
def c2llm : LLMResult :=
  { response := "xyz".toList, quality := some { level := sGood } }

/-- Counterexample to C1's claim source for C2: at a length ratio of exactly
1.5 (len(L) = 3 = 1.5 x len(D) = 1.5 x 2) with an ungrounded `good` LLM
candidate on a non-name-search query, the code keeps the deterministic text
"ab" and does NOT select the LLM text, contradicting the claimed
`len(L) >= 1.5 x len(D)` arbitration condition. -/
theorem general_arbitration_boundary_counterexample :
    hasRealData c2agent c2llm = false ∧
    2 * c2llm.response.length = 3 * (deterministicText c2agent).length ∧
    qualityLevelOf (some c2llm) = some sGood ∧
    (selectPrimaryResponse (isNameSearchOf none) c2agent (some c2llm)).response
      = some ("ab".toList) ∧
    (selectPrimaryResponse (isNameSearchOf none) c2agent (some c2llm)).response
      ≠ some c2llm.response := by
  decide

/-- Concrete instantiation of `general_arbitration_spec`: a grounded LLM
candidate (it names resident Zu) is selected on a non-name-search query. -/
def c2llmGrounded : LLMResult :=
  { response := "Zu e um residente".toList, quality := some { level := sExcellent } }

/-- Witness for `general_arbitration_spec` at concrete inputs: hypotheses
discharged with `dataNeeds = none` and an `excellent` grounded candidate. -/
theorem general_arbitration_spec_witness :
    (selectPrimaryResponse (isNameSearchOf none) c2agent (some c2llmGrounded)).response
      = some c2llmGrounded.response := by
  have h := general_arbitration_spec none c2agent c2llmGrounded (by decide) (Or.inl (by decide))
  exact h.2.1 ((h.1).mpr (Or.inl (by decide)))

end Orchestrator

namespace ScopeClassifier

/-- The fixed municipal-domain anchor token list of `ScopeClassifier.classify`
(services/ScopeClassifier.js). -/
def municipalTokens : List JStr :=
  ["satisfacao".toList, "satisfação".toList, "engajamento".toList, "participacao".toList,
   "participação".toList, "bairro".toList, "equidade".toList, "municip".toList,
   "cidada".toList, "cidadã".toList, "cidadão".toList, "governanca".toList,
   "governança".toList, "resposta".toList, "taxa".toList, "survey".toList,
   "residente".toList, "morador".toList]

/-- `municipalTokens.filter(t => query.toLowerCase().includes(t)).length`
(note: only lower-cased, no diacritic stripping here). -/
def municipalMatches (query : JStr) : ℕ :=
  (municipalTokens.filter (fun t => containsSub (query.map jsToLower) t)).length

/-- The external classifier's verdict after JSON parsing and field
normalization (lines 69-70 of ScopeClassifier.js): `inScope` and a numeric
`confidence`. -/
structure ParsedVerdict where
  inScope : Bool
  confidence : ℚ
deriving DecidableEq, Repr

/-- The value returned by `classify` on the success path. -/
structure ScopeVerdict where
  inScope : Bool
  confidence : ℚ
  reason : JStr
deriving DecidableEq, Repr

/-- The replacement reason installed by the confidence safeguard. -/
def sLowConfReason : JStr :=
  "Low confidence and no municipal domain tokens detected".toList

/-- The post-parse safeguard stage of `ScopeClassifier.classify`: when the
model judged the query in-scope with confidence < 0.65 and the query has zero
municipal anchor tokens, the verdict is flipped to out-of-scope; confidence is
clamped into [0, 1]. -/
def classifyVerdict (query : JStr) (parsed : ParsedVerdict) (reason : JStr) : ScopeVerdict :=
  let clamped := max 0 (min 1 parsed.confidence)
  if parsed.inScope then
    if parsed.confidence < 65/100 ∧ municipalMatches query = 0 then
      { inScope := false, confidence := clamped, reason := sLowConfReason }
    else
      { inScope := parsed.inScope, confidence := clamped, reason := reason }
  else
    { inScope := parsed.inScope, confidence := clamped, reason := reason }

end ScopeClassifier

namespace QueryAnalyzer

/-- `existsTail p s` : `p` holds of some suffix of `s` (a regex-style scan
for a match starting at any position). -/
def existsTail (p : JStr → Bool) : JStr → Bool
  | [] => p []
  | c :: rest => p (c :: rest) || existsTail p rest

/-- Matches `/total\s+(de|dos|das)?/i` at the head of `t`: the literal
`total` followed by at least one whitespace character (the trailing group is
optional so it cannot constrain matching). -/
def matchTotalWs (t : JStr) : Bool :=
  leadsWith ("total".toList) t &&
    (match t.drop 5 with
     | c :: _ => isWsChar c
     | [] => false)

/-- Matches `/quantos?\s+(cadastros?|registros?|contatos?|pessoas?)/i` at the
head of `t`: `quanto`, an optional `s`, whitespace, then one of the database
nouns (their optional plural `s` cannot affect matching). -/
def matchQuantosDb (t : JStr) : Bool :=
  leadsWith ("quanto".toList) t &&
    (let rest := t.drop 6
     let rest2 := if leadsWith (['s']) rest then rest.drop 1 else rest
     match rest2 with
     | c :: _ => isWsChar c &&
         (["cadastro".toList, "registro".toList, "contato".toList, "pessoa".toList].any
           (fun w => leadsWith w (rest2.dropWhile isWsChar)))
     | [] => false)

/-- Matches `/how\s+many/i` at the head of `t`. -/
def matchHowMany (t : JStr) : Bool :=
  leadsWith ("how".toList) t &&
    (match t.drop 3 with
     | c :: _ => isWsChar c && leadsWith ("many".toList) ((t.drop 3).dropWhile isWsChar)
     | [] => false)

/-- `statisticalTerms` of `isStatisticalOrOperationalQuery`
(services/QueryAnalyzer.js, concatenated into MunicipalPromptEngine.js; the
accented entries can never occur in a normalized query, as in the source). -/
def statisticalTerms : List JStr :=
  ["total".toList, "quantos".toList, "quantas".toList, "how many".toList,
   "how much".toList, "count".toList, "numero".toList, "número".toList,
   "registros".toList, "registro".toList, "cadastros".toList, "cadastro".toList,
   "contagem".toList, "estatistica".toList, "estatística".toList, "dados".toList,
   "database".toList, "atualmente".toList, "atual".toList, "currently".toList,
   "hoje".toList, "today".toList]

/-- `databaseTerms` of `isStatisticalOrOperationalQuery`. -/
def databaseTerms : List JStr :=
  ["cadastro".toList, "cadastros".toList, "registro".toList, "registros".toList,
   "contato".toList, "contatos".toList, "contact".toList, "contacts".toList,
   "pessoa".toList, "pessoas".toList, "cidad".toList, "citizen".toList,
   "resident".toList, "residente".toList, "morador".toList, "moradores".toList]

/-- `isStatisticalOrOperationalQuery(query)` (QueryAnalyzer): statistical
term + database term, or an explicit total/count regex pattern, or a
statistical term + a `cadastr`/`registr` stem. -/
def isStatisticalOrOperationalQuery (query : JStr) : Bool :=
  let qn := normalizeJS query
  let hasStatisticalTerm := statisticalTerms.any (fun t => containsSub qn t)
  let hasDatabaseTerm := databaseTerms.any (fun t => containsSub qn t)
  let hasTotalQuery := existsTail matchTotalWs qn || existsTail matchQuantosDb qn ||
    existsTail matchHowMany qn
  (hasStatisticalTerm && hasDatabaseTerm) || hasTotalQuery ||
    (hasStatisticalTerm &&
      (containsSub qn ("cadastr".toList) || containsSub qn ("registr".toList)))

/-- The Step 0.25 `analysisKeywords` list of `analyzeQuery`. -/
def analysisKeywords : List JStr :=
  ["análise".toList, "analysis".toList, "relatório".toList, "report".toList,
   "estatística".toList, "statistics".toList, "satisfação".toList,
   "satisfaction".toList, "engajamento".toList, "engagement".toList,
   "bairro".toList, "neighborhood".toList, "bairros".toList, "neighborhoods".toList,
   "resumo".toList, "summary".toList, "overview".toList, "visão".toList,
   "view".toList, "visao".toList, "problema".toList, "problem".toList,
   "problemas".toList, "problems".toList, "questão".toList, "questao".toList,
   "question".toList, "questões".toList, "questoes".toList, "questions".toList,
   "participação".toList, "participacao".toList, "participation".toList,
   "idade".toList, "age".toList, "faixa etária".toList, "faixa etaria".toList,
   "age bracket".toList]

/-- The Step 0.25 `displayVerbs` list of `analyzeQuery`. -/
def displayVerbs : List JStr :=
  ["mostrar".toList, "mostre".toList, "exibir".toList, "exiba".toList,
   "show".toList, "display".toList, "listar".toList, "lista".toList,
   "list".toList, "trazer".toList, "traga".toList, "bring".toList,
   "apresentar".toList, "apresente".toList, "present".toList]

/-- `hasAnalysisKeyword`: the keywords are normalized before comparison
against the normalized query. -/
def hasAnalysisKeywordQ (qn : JStr) : Bool :=
  (analysisKeywords.map normalizeJS).any (fun kw => containsSub qn kw)

/-- `hasDisplayVerb`: the verbs are normalized before comparison. -/
def hasDisplayVerbQ (qn : JStr) : Bool :=
  (displayVerbs.map normalizeJS).any (fun v => containsSub qn v)

/-- The Step 0.25 guard: analysis keyword together with a display verb. -/
def preCheckAnalysisDisplay (query : JStr) : Bool :=
  hasAnalysisKeywordQ (normalizeJS query) && hasDisplayVerbQ (normalizeJS query)

/-- The Step 0.25 fallback guard: analysis keyword together with a
preposition `de`/`do`/`da` (no display verb needed). -/
def preCheckAnalysisPreposition (query : JStr) : Bool :=
  hasAnalysisKeywordQ (normalizeJS query) &&
    (containsSub (normalizeJS query) ("de".toList) ||
     containsSub (normalizeJS query) ("do".toList) ||
     containsSub (normalizeJS query) ("da".toList))

/-- The Step 0.4 `residentFilterKeywords` list of `analyzeQuery`. -/
def residentFilterKeywords : List JStr :=
  ["insatisfeito".toList, "insatisfeitos".toList, "dissatisfied".toList,
   "unsatisfied".toList, "nao querem participar".toList,
   "nao quer participar".toList, "not interested".toList,
   "nao interessados".toList, "nao interessado".toList, "sem interesse".toList,
   "satisfeito".toList, "satisfeitos".toList, "satisfied".toList,
   "interessado".toList, "interessados".toList, "interested".toList,
   "querem participar".toList]

/-- The Step 0.4 `filterVerbs` list of `analyzeQuery`. -/
def filterVerbs : List JStr :=
  ["encontrar".toList, "encontre".toList, "encontra".toList, "find".toList,
   "buscar".toList, "busque".toList, "listar".toList, "lista".toList,
   "list".toList, "mostrar".toList, "mostre".toList, "show".toList,
   "exibir".toList, "exiba".toList, "display".toList, "trazer".toList,
   "traga".toList]

/-- `hasFilterKeyword` over the normalized query. -/
def hasFilterKeywordQ (qn : JStr) : Bool :=
  residentFilterKeywords.any (fun kw => containsSub qn kw)

/-- `hasFilterVerb` over the normalized query. -/
def hasFilterVerbQ (qn : JStr) : Bool :=
  filterVerbs.any (fun v => containsSub qn v)

/-- `hasResidentNoun` over the normalized query. -/
def hasResidentNounQ (qn : JStr) : Bool :=
  containsSub qn ("morador".toList) || containsSub qn ("moradores".toList) ||
  containsSub qn ("resident".toList) || containsSub qn ("residents".toList) ||
  containsSub qn ("cidadao".toList) || containsSub qn ("cidadaos".toList) ||
  containsSub qn ("cidadas".toList)

/-- The Step 0.4 guard: filter keyword + (filter verb OR resident noun). -/
def preCheckResidentFilter (query : JStr) : Bool :=
  hasFilterKeywordQ (normalizeJS query) &&
    (hasFilterVerbQ (normalizeJS query) || hasResidentNounQ (normalizeJS query))

/-- `nameSearchVerbs` of `detectNameSearch`: includes `localize`,
`localizar`, and the pre-normalization `quem é`. -/
def nameSearchVerbs : List JStr :=
  ["encontre".toList, "encontrar".toList, "encontra".toList, "busque".toList,
   "buscar".toList, "busca".toList, "find".toList, "search".toList,
   "procure".toList, "procurar".toList, "procura".toList, "mostre".toList,
   "mostrar".toList, "mostra".toList, "show".toList, "exiba".toList,
   "exibir".toList, "traga".toList, "trazer".toList, "quem e".toList,
   "quem eh".toList, "quem é".toList, "localize".toList, "localizar".toList]

/-- `commonWords` of `detectNameSearch` (the longer stop-word list with
`meus`/`minhas`/`uns`/`umas`). -/
def commonWords : List JStr :=
  ["o".toList, "a".toList, "os".toList, "as".toList, "de".toList, "do".toList,
   "da".toList, "dos".toList, "das".toList, "em".toList, "no".toList,
   "na".toList, "the".toList, "a".toList, "an".toList, "me".toList,
   "meu".toList, "minha".toList, "meus".toList, "minhas".toList, "um".toList,
   "uma".toList, "uns".toList, "umas".toList, "que".toList, "qual".toList,
   "quais".toList]

/-- The name-letter character class of `detectNameSearch` /
`analyzeQueryHeuristically` (both case variants; equivalently a lower-cased
membership test). -/
def isNameLetter (c : Char) : Bool :=
  (decide ('a' ≤ jsToLower c) && decide (jsToLower c ≤ 'z')) ||
    (['á', 'à', 'â', 'ã', 'é', 'è', 'ê', 'í', 'ì', 'î', 'ó', 'ò', 'ô', 'õ',
      'ú', 'ù', 'û', 'ç']).contains (jsToLower c)

/-- `detectNameSearch(query).isNameSearch` (the extracted name is not
consulted by `analyzeQuery`'s control flow): a name-search verb occurs, and
after removing stop words and verbs at least one residual word of length ≥ 2
containing a letter remains. -/
def detectNameSearch (query : JStr) : Bool :=
  let qn := normalizeJS query
  if nameSearchVerbs.any (fun t => containsSub qn t) then
    let words := (jsSplitWs query).filter (fun w =>
      !(commonWords.contains (normalizeJS w)) &&
        !(nameSearchVerbs.contains (normalizeJS w)))
    decide (1 ≤ (words.filter (fun w =>
      decide (2 ≤ w.length) && w.any isNameLetter)).length)
  else false

end QueryAnalyzer

namespace Orchestrator

/-- The pipeline components `orchestrate` may invoke after classification. -/
inductive Component where
  | queryAnalyzer
  | contextBuilder
  | routedAgent
  | analysisEngine
  | residentFilter
  | llmEnhancement
deriving DecidableEq, Repr

/-- `queryAnalysis` as consumed by `orchestrate` (the fields it reads). -/
structure QueryAnalysisResult where
  intent : JStr
  queryType : JStr
  dataNeeds : Option (List JStr)
  blocked : Bool
deriving DecidableEq, Repr

/-- The fields of the orchestrator's returned object that the claims are
about. -/
structure FinalResponse where
  intent : JStr
  response : Option JStr
  residents : List Resident
  success : Bool
  confidence : ℚ
deriving DecidableEq, Repr

/-- The fixed redirection message of the blocked branch of `orchestrate`. -/
def blockedMessage : JStr :=
  ("Consulta fora do escopo da Inteligência Municipal. Reformule dentro de: " ++
   "satisfação cidadã, engajamento, equidade geográfica, desempenho operacional, " ++
   "benchmarking ou análise de pesquisa.").toList

/-- The string `'out_of_scope'`. -/
def sOutOfScope : JStr := "out_of_scope".toList

/-- The string `'ticket'`. -/
def sTicket : JStr := "ticket".toList

/-- The downstream collaborators of the orchestrator, abstracted as functions
of the query: the deterministic agent result produced via context building and
routing, and the optional LLM enhancement outcome (`none` covers both failure
and a missing API key). -/
structure Pipeline where
  agentResultOf : JStr → AgentResult
  llmResultOf : JStr → Option LLMResult
  hasValidApiKey : Bool

/-- `orchestrate(query)` from `orchestrator.js`, shallowly embedded with an
explicit invocation trace. The blocked branch returns before any downstream
component runs; otherwise context building, routing (which exercises the
analysis engine and resident filter inside the agents), optional LLM
enhancement and arbitration happen in order. -/
def orchestrate (p : Pipeline) (query : JStr) (qa : QueryAnalysisResult) :
    FinalResponse × List Component :=
  if qa.blocked then
    ({ intent := sOutOfScope, response := some blockedMessage, residents := [],
       success := true, confidence := 0 },
     [Component.queryAnalyzer])
  else
    let agentResult := p.agentResultOf query
    let enhance := p.hasValidApiKey ∧ qa.intent ≠ sTicket
    let llmResult := if enhance then p.llmResultOf query else none
    let sel := selectPrimaryResponse (isNameSearchOf qa.dataNeeds) agentResult llmResult
    ({ intent := qa.intent, response := sel.response, residents := residentsOf agentResult,
       success := true, confidence := calculateConfidence agentResult llmResult },
     [Component.queryAnalyzer, Component.contextBuilder, Component.routedAgent,
      Component.analysisEngine, Component.residentFilter] ++
       (if enhance then [Component.llmEnhancement] else []))

end Orchestrator

namespace Orchestrator

/-- C9: when the query analysis is blocked, `orchestrate` returns immediately
with intent `out_of_scope`, the fixed redirection message and an empty
resident list, and invokes no downstream component (context builder, routed
agent, analysis engine, resident filter, or LLM enhancement). -/
theorem orchestrate_blocked_spec :
    ∀ (p : Pipeline) (query : JStr) (qa : QueryAnalysisResult),
      qa.blocked = true →
      (orchestrate p query qa).1.intent = sOutOfScope ∧
      (orchestrate p query qa).1.response = some blockedMessage ∧
      (orchestrate p query qa).1.residents = [] ∧
      (orchestrate p query qa).1.success = true ∧
      (orchestrate p query qa).2 = [Component.queryAnalyzer] ∧
      (∀ c ∈ (orchestrate p query qa).2,
        c ≠ Component.contextBuilder ∧ c ≠ Component.routedAgent ∧
        c ≠ Component.analysisEngine ∧ c ≠ Component.residentFilter ∧
        c ≠ Component.llmEnhancement) := by
  intro p query qa hb
  unfold orchestrate
  rw [if_pos hb]
  refine ⟨rfl, rfl, rfl, rfl, rfl, ?_⟩
  intro c hc
  simp only [List.mem_singleton] at hc
  subst hc
  exact ⟨by simp, by simp, by simp, by simp, by simp⟩

/-- A trivial concrete pipeline for witnesses. -/
def cwPipeline : Pipeline :=
  { agentResultOf := fun _ => cwAgent0, llmResultOf := fun _ => none, hasValidApiKey := false }

/-- A concrete blocked query analysis. -/
def cwBlockedQA : QueryAnalysisResult :=
  { intent := sOutOfScope, queryType := [], dataNeeds := none, blocked := true }

/-- Concrete instantiation of `orchestrate_blocked_spec`. -/
theorem orchestrate_blocked_spec_witness :
    (orchestrate cwPipeline [] cwBlockedQA).1.intent = sOutOfScope ∧
    (orchestrate cwPipeline [] cwBlockedQA).2 = [Component.queryAnalyzer] :=
  ⟨(orchestrate_blocked_spec cwPipeline [] cwBlockedQA rfl).1,
   (orchestrate_blocked_spec cwPipeline [] cwBlockedQA rfl).2.2.2.2.1⟩

end Orchestrator

namespace QueryAnalyzer

/-- The record returned by `analyzeQueryHeuristically`. -/
structure HeuristicAnalysis where
  primaryIntent : JStr
  queryType : JStr
  dataNeeds : List JStr
  urgency : JStr
deriving DecidableEq, Repr

/-- `nameSearchVerbs` of `analyzeQueryHeuristically`: a shorter list than
`detectNameSearch`'s (no `localize`/`localizar`/`quem é`). -/
def nameSearchVerbsH : List JStr :=
  ["encontre".toList, "encontrar".toList, "encontra".toList, "busque".toList,
   "buscar".toList, "busca".toList, "find".toList, "search".toList,
   "procure".toList, "procurar".toList, "procura".toList, "mostre".toList,
   "mostrar".toList, "mostra".toList, "show".toList, "exiba".toList,
   "exibir".toList, "traga".toList, "trazer".toList, "quem e".toList,
   "quem eh".toList]

/-- `commonWords` of `analyzeQueryHeuristically`: the shorter stop-word
list. -/
def commonWordsH : List JStr :=
  ["o".toList, "a".toList, "os".toList, "as".toList, "de".toList, "do".toList,
   "da".toList, "dos".toList, "das".toList, "em".toList, "no".toList,
   "na".toList, "the".toList, "a".toList, "an".toList]

/-- `listVerbs` of the resident-listing branch. -/
def listVerbs : List JStr :=
  ["list".toList, "show".toList, "names".toList, "display".toList,
   "listar".toList, "lista".toList, "mostre".toList, "mostrar".toList,
   "exibir".toList, "exiba".toList, "traga".toList, "me mostre".toList,
   "me traga".toList]

/-- `residentNouns` of the resident-listing branch. -/
def residentNouns : List JStr :=
  ["resident".toList, "citizen".toList, "residente".toList, "morador".toList,
   "moradores".toList, "cidadao".toList, "cidadaos".toList, "cidadas".toList]

/-- `satisfiedTokens` of the resident-listing branch. -/
def satisfiedTokens : List JStr :=
  ["dissatisfied".toList, "unsatisfied".toList, "insatisfied".toList,
   "unhappy".toList, "satisfied".toList, "insatisfeito".toList,
   "insatisfeitos".toList, "insatisfacao".toList, "satisfeito".toList,
   "satisfeitos".toList]

/-- `participationTokens` of the resident-listing branch. -/
def participationTokens : List JStr :=
  ["interested".toList, "interessado".toList, "interessados".toList,
   "participated".toList, "participar".toList, "participantes".toList,
   "participacao".toList, "participaria".toList]

/-- The JS dedup-push idiom `if (!l.includes(x)) l.push(x)`. -/
def pushUnique (l : List JStr) (x : JStr) : List JStr :=
  if l.contains x then l else l ++ [x]

/-- The string `'knowledge'`. -/
def sKnowledge : JStr := "knowledge".toList

/-- The string `'notification'`. -/
def sNotification : JStr := "notification".toList

/-- The string `'listing'`. -/
def sListing : JStr := "listing".toList

/-- The string `'analysis'`. -/
def sAnalysisT : JStr := "analysis".toList

/-- The string `'normal'`. -/
def sNormal : JStr := "normal".toList

/-- The string `'blocked'`. -/
def sBlockedT : JStr := "blocked".toList

/-- `analyzeQueryHeuristically(query)` (QueryAnalyzer): name-search branch
first, then resident listing, then abandonment, then the fall-through that
accumulates `total_count`/segment/geographic data needs and picks
notification/ticket intent from keywords. -/
def analyzeQueryHeuristically (query : JStr) : HeuristicAnalysis :=
  let qn := normalizeJS query
  if nameSearchVerbsH.any (fun t => containsSub qn t) &&
      decide (1 ≤ ((((jsSplitWs query).filter (fun w =>
          !(commonWordsH.contains (normalizeJS w)) &&
            !(nameSearchVerbsH.contains (normalizeJS w))))).filter (fun w =>
        decide (2 ≤ w.length) && w.any isNameLetter)).length) then
    { primaryIntent := sKnowledge, queryType := sListing,
      dataNeeds := [Orchestrator.sNameSearch], urgency := sNormal }
  else if listVerbs.any (fun t => containsSub qn t) &&
      (residentNouns.any (fun t => containsSub qn t) ||
       satisfiedTokens.any (fun t => containsSub qn t) ||
       participationTokens.any (fun t => containsSub qn t)) then
    { primaryIntent := sNotification, queryType := sListing, dataNeeds := [],
      urgency := sNormal }
  else if (containsSub qn ("clicked".toList) || containsSub qn ("abandoned".toList)) &&
      (containsSub qn ("didn".toList) || containsSub qn ("not".toList) ||
       containsSub qn ("survey".toList)) then
    { primaryIntent := sNotification, queryType := ("abandonment".toList),
      dataNeeds := [("abandonment".toList)], urgency := sNormal }
  else
    let dn0 : List JStr :=
      if containsSub qn ("total".toList) || containsSub qn ("quantos".toList) ||
          containsSub qn ("quantas".toList) || containsSub qn ("cadastros".toList) ||
          containsSub qn ("registros".toList) || containsSub qn ("how many".toList) ||
          containsSub qn ("count".toList) then [("total_count".toList)] else []
    let intent :=
      if containsSub qn ("send".toList) || containsSub qn ("message".toList) ||
          containsSub qn ("notify".toList) || containsSub qn ("contact".toList) then
        sNotification
      else if containsSub qn ("system".toList) || containsSub qn ("health".toList) ||
          containsSub qn ("status".toList) || containsSub qn ("export".toList) then
        Orchestrator.sTicket
      else sKnowledge
    let dn1 := dn0 ++ (if containsSub qn ("dissatisfied".toList) ||
        containsSub qn ("insatisf".toList) || containsSub qn ("insatisfeito".toList)
      then [("dissatisfied".toList)] else [])
    let dn2 := dn1 ++ (if (containsSub qn ("satisfied".toList) ||
          containsSub qn ("satisfeito".toList)) &&
        !(containsSub qn ("dissatisfied".toList) ||
          containsSub qn ("insatisfeito".toList))
      then [("satisfied".toList)] else [])
    let dn3 := dn2 ++ (if containsSub qn ("particip".toList) ||
        containsSub qn ("interested".toList) || containsSub qn ("interessad".toList)
      then [("participation".toList)] else [])
    let dn4 := dn3 ++ (if containsSub qn ("neighborhood".toList) ||
        containsSub qn ("equity".toList) || containsSub qn ("bairro".toList)
      then [("geographic".toList)] else [])
    { primaryIntent := intent, queryType := sAnalysisT, dataNeeds := dn4,
      urgency := sNormal }

/-- `hasMunicipalDomainTokens(query)` (QueryAnalyzer): the EXTENDED anchor
list (it adds cadastro/registro/total/quantos/quantas/contagem/estatistica to
the ScopeClassifier list), over the lower-cased query. -/
def municipalTokensQA : List JStr :=
  ["satisfacao".toList, "satisfação".toList, "engajamento".toList,
   "participacao".toList, "participação".toList, "bairro".toList,
   "equidade".toList, "municip".toList, "cidada".toList, "cidadã".toList,
   "cidadão".toList, "governanca".toList, "governança".toList,
   "resposta".toList, "taxa".toList, "survey".toList, "residente".toList,
   "morador".toList, "cadastro".toList, "cadastros".toList,
   "registro".toList, "registros".toList, "total".toList, "quantos".toList,
   "quantas".toList, "contagem".toList, "estatistica".toList,
   "estatística".toList]

/-- `hasMunicipalDomainTokens(query)`. -/
def hasMunicipalDomainTokens (query : JStr) : Bool :=
  municipalTokensQA.any (fun t => containsSub (query.map jsToLower) t)

/-- `analyzeQuery(query)` (QueryAnalyzer), with the external
`scopeClassifier.classify` outcome passed as `scope` (only consulted once
every pre-check has failed). The Step 3 canonical-intent remap never fires
because `classify`'s returned object carries no `canonical_intent` field.
The Step 5 safeguard nests `scope.inScope === true && confidence < 0.65`
around the `!hasMunicipalDomainTokens` test; the nesting is flattened into
one conjunction. Only the fields the orchestrator reads are returned. -/
def analyzeQuery (query : JStr) (scope : ScopeClassifier.ScopeVerdict) :
    Orchestrator.QueryAnalysisResult :=
  if query.isEmpty || (jsTrim query).isEmpty then
    { intent := sKnowledge, queryType := sAnalysisT, dataNeeds := some [], blocked := true }
  else if isStatisticalOrOperationalQuery query then
    let h := analyzeQueryHeuristically query
    if h.primaryIntent.isEmpty then
      { intent := sKnowledge, queryType := sAnalysisT, dataNeeds := some h.dataNeeds,
        blocked := false }
    else
      { intent := h.primaryIntent, queryType := h.queryType,
        dataNeeds := some h.dataNeeds, blocked := false }
  else if preCheckAnalysisDisplay query then
    let h := analyzeQueryHeuristically query
    let qn := normalizeJS query
    let dn := h.dataNeeds.erase Orchestrator.sNameSearch
    let dn := if containsSub qn ("satisf".toList) || containsSub qn ("satisfação".toList) ||
        containsSub qn ("satisfaction".toList)
      then pushUnique dn ("satisfaction_analysis".toList) else dn
    let dn := if containsSub qn ("bairro".toList) || containsSub qn ("neighborhood".toList)
      then pushUnique dn ("geographic".toList) else dn
    let dn := if containsSub qn ("idade".toList) || containsSub qn ("age".toList) ||
        containsSub qn ("faixa".toList)
      then pushUnique dn ("age_analysis".toList) else dn
    { intent := sKnowledge, queryType := sAnalysisT, dataNeeds := some dn, blocked := false }
  else if preCheckAnalysisPreposition query then
    let h := analyzeQueryHeuristically query
    { intent := sKnowledge, queryType := sAnalysisT, dataNeeds := some h.dataNeeds,
      blocked := false }
  else if preCheckResidentFilter query then
    let h := analyzeQueryHeuristically query
    let qn := normalizeJS query
    let dn := h.dataNeeds.erase Orchestrator.sNameSearch
    if containsSub qn ("insatisf".toList) || containsSub qn ("dissatisfied".toList) then
      if hasFilterVerbQ qn && (containsSub qn ("listar".toList) ||
          containsSub qn ("mostrar".toList) || containsSub qn ("list".toList) ||
          containsSub qn ("show".toList)) then
        { intent := sNotification, queryType := sListing,
          dataNeeds := some (pushUnique dn ("dissatisfied".toList)), blocked := false }
      else
        { intent := sKnowledge, queryType := sAnalysisT,
          dataNeeds := some (pushUnique dn ("dissatisfied".toList)), blocked := false }
    else if containsSub qn ("particip".toList) || containsSub qn ("interessad".toList) then
      if containsSub qn ("nao".toList) || containsSub qn ("not".toList) ||
          containsSub qn ("sem interesse".toList) then
        { intent := sNotification, queryType := sListing,
          dataNeeds := some (pushUnique dn ("participation_not_interested".toList)),
          blocked := false }
      else
        { intent := sNotification, queryType := sListing,
          dataNeeds := some (pushUnique dn ("participation_interested".toList)),
          blocked := false }
    else
      { intent := h.primaryIntent, queryType := h.queryType, dataNeeds := some dn,
        blocked := false }
  else if detectNameSearch query then
    let h := analyzeQueryHeuristically query
    { intent := sKnowledge, queryType := Orchestrator.jsOrStr (some h.queryType) sListing,
      dataNeeds := some (pushUnique h.dataNeeds Orchestrator.sNameSearch),
      blocked := false }
  else
    if scope.inScope = false then
      if isStatisticalOrOperationalQuery query then
        let h := analyzeQueryHeuristically query
        { intent := Orchestrator.jsOrStr (some h.primaryIntent) sKnowledge,
          queryType := Orchestrator.jsOrStr (some h.queryType) sAnalysisT,
          dataNeeds := some h.dataNeeds, blocked := false }
      else if detectNameSearch query then
        let h := analyzeQueryHeuristically query
        { intent := sKnowledge, queryType := Orchestrator.jsOrStr (some h.queryType) sListing,
          dataNeeds := some (pushUnique h.dataNeeds Orchestrator.sNameSearch),
          blocked := false }
      else
        { intent := Orchestrator.sOutOfScope, queryType := sBlockedT,
          dataNeeds := some [], blocked := true }
    else if scope.inScope = true ∧ scope.confidence < 65/100 ∧
        hasMunicipalDomainTokens query = false then
      { intent := Orchestrator.sOutOfScope, queryType := sBlockedT,
        dataNeeds := some [], blocked := true }
    else
      let h := analyzeQueryHeuristically query
      { intent := h.primaryIntent, queryType := h.queryType,
        dataNeeds := some h.dataNeeds, blocked := false }

/-- A nonempty trimmed string comes from a nonempty string. -/
theorem isEmpty_false_of_jsTrim (q : JStr) (h : (jsTrim q).isEmpty = false) :
    q.isEmpty = false := by
  cases q with
  | nil => exact absurd h (by decide)
  | cons a l => rfl

end QueryAnalyzer

/-- C4: a query whose external-classifier verdict parses as in-scope with
confidence < 0.65 and which contains zero municipal anchor tokens is flipped
to out-of-scope by the `ScopeClassifier.classify` safeguard; end-to-end, when
no pre-check of `QueryAnalyzer.analyzeQuery` fires (as for
"Quero pedir uma pizza"), the query is blocked with intent `out_of_scope`,
and the orchestrator answers with intent `out_of_scope`. -/
theorem scopeClassifier_flip_spec :
    (∀ (q : JStr) (parsed : ScopeClassifier.ParsedVerdict) (r : JStr),
      parsed.inScope = true → parsed.confidence < 65/100 →
      ScopeClassifier.municipalMatches q = 0 →
      (ScopeClassifier.classifyVerdict q parsed r).inScope = false)
    ∧ (∀ (p : Orchestrator.Pipeline) (q : JStr) (parsed : ScopeClassifier.ParsedVerdict)
        (r : JStr),
        parsed.inScope = true → parsed.confidence < 65/100 →
        ScopeClassifier.municipalMatches q = 0 →
        (jsTrim q).isEmpty = false →
        QueryAnalyzer.isStatisticalOrOperationalQuery q = false →
        QueryAnalyzer.preCheckAnalysisDisplay q = false →
        QueryAnalyzer.preCheckAnalysisPreposition q = false →
        QueryAnalyzer.preCheckResidentFilter q = false →
        QueryAnalyzer.detectNameSearch q = false →
        (QueryAnalyzer.analyzeQuery q (ScopeClassifier.classifyVerdict q parsed r)).blocked
            = true ∧
        (QueryAnalyzer.analyzeQuery q (ScopeClassifier.classifyVerdict q parsed r)).intent
            = Orchestrator.sOutOfScope ∧
        (Orchestrator.orchestrate p q
            (QueryAnalyzer.analyzeQuery q (ScopeClassifier.classifyVerdict q parsed r))).1.intent
          = Orchestrator.sOutOfScope) := by
  have flip : ∀ (q : JStr) (parsed : ScopeClassifier.ParsedVerdict) (r : JStr),
      parsed.inScope = true → parsed.confidence < 65/100 →
      ScopeClassifier.municipalMatches q = 0 →
      (ScopeClassifier.classifyVerdict q parsed r).inScope = false := by
    intro q parsed r hin hconf hmatch
    unfold ScopeClassifier.classifyVerdict
    rw [if_pos hin, if_pos ⟨hconf, hmatch⟩]
  have analyzed : ∀ (q : JStr) (parsed : ScopeClassifier.ParsedVerdict) (r : JStr),
      parsed.inScope = true → parsed.confidence < 65/100 →
      ScopeClassifier.municipalMatches q = 0 →
      (jsTrim q).isEmpty = false →
      QueryAnalyzer.isStatisticalOrOperationalQuery q = false →
      QueryAnalyzer.preCheckAnalysisDisplay q = false →
      QueryAnalyzer.preCheckAnalysisPreposition q = false →
      QueryAnalyzer.preCheckResidentFilter q = false →
      QueryAnalyzer.detectNameSearch q = false →
      QueryAnalyzer.analyzeQuery q (ScopeClassifier.classifyVerdict q parsed r)
        = { intent := Orchestrator.sOutOfScope, queryType := QueryAnalyzer.sBlockedT,
            dataNeeds := some [], blocked := true } := by
    intro q parsed r hin hconf hmatch htrim hstat hpre1 hpre2 hpre3 hname
    have hqe : q.isEmpty = false := QueryAnalyzer.isEmpty_false_of_jsTrim q htrim
    unfold QueryAnalyzer.analyzeQuery
    rw [if_neg (by simp [hqe, htrim])]
    rw [if_neg (by simp [hstat])]
    rw [if_neg (by simp [hpre1])]
    rw [if_neg (by simp [hpre2])]
    rw [if_neg (by simp [hpre3])]
    rw [if_neg (by simp [hname])]
    rw [if_pos (flip q parsed r hin hconf hmatch)]
    rw [if_neg (by simp [hstat])]
    rw [if_neg (by simp [hname])]
  refine ⟨flip, ?_⟩
  intro p q parsed r hin hconf hmatch htrim hstat hpre1 hpre2 hpre3 hname
  have ha := analyzed q parsed r hin hconf hmatch htrim hstat hpre1 hpre2 hpre3 hname
  refine ⟨by rw [ha], by rw [ha], ?_⟩
  unfold Orchestrator.orchestrate
  rw [if_pos (by rw [ha])]

/-- The out-of-scope example query of the spec. -/
def pizzaQuery : JStr := "Quero pedir uma pizza".toList

/-- A parsed external verdict: in-scope but with low confidence 0.5. -/
def pizzaVerdict : ScopeClassifier.ParsedVerdict := { inScope := true, confidence := 1/2 }

/-- A trivial concrete pipeline for the C4 witness. -/
def c4Pipeline : Orchestrator.Pipeline :=
  { agentResultOf := fun _ => Orchestrator.cwAgent0, llmResultOf := fun _ => none,
    hasValidApiKey := false }

/-- Concrete instantiation of `scopeClassifier_flip_spec` on
"Quero pedir uma pizza" with an in-scope, confidence-0.5 parsed verdict: no
pre-check fires, the verdict is flipped, and the pipeline blocks. -/
theorem scopeClassifier_flip_spec_witness :
    (ScopeClassifier.classifyVerdict pizzaQuery pizzaVerdict []).inScope = false ∧
    (QueryAnalyzer.analyzeQuery pizzaQuery
        (ScopeClassifier.classifyVerdict pizzaQuery pizzaVerdict [])).blocked = true ∧
    (Orchestrator.orchestrate c4Pipeline pizzaQuery
        (QueryAnalyzer.analyzeQuery pizzaQuery
          (ScopeClassifier.classifyVerdict pizzaQuery pizzaVerdict []))).1.intent
      = Orchestrator.sOutOfScope := by
  have hconf : pizzaVerdict.confidence < 65/100 := by norm_num [pizzaVerdict]
  have h1 := scopeClassifier_flip_spec.1 pizzaQuery pizzaVerdict [] rfl hconf (by decide)
  have h2 := scopeClassifier_flip_spec.2 c4Pipeline pizzaQuery pizzaVerdict [] rfl hconf
    (by decide) (by decide) (by decide) (by decide) (by decide) (by decide) (by decide)
  exact ⟨h1, h2.1, h2.2.2⟩

namespace ResidentFilterService

/-- `record.survey` : the survey sub-record fields the filters read. -/
structure Survey where
  satisfaction : Option JStr
  issue : Option JStr
  participate : Option JStr
deriving DecidableEq, Repr

/-- A raw contact record, restricted to the fields the filters read. -/
structure Contact where
  name : Option JStr
  neighborhood : Option JStr
  whatsapp : Option JStr
  survey : Option Survey
deriving DecidableEq, Repr

/-- A filtered-resident projection with its derived priority label. -/
structure FilteredResident where
  name : Option JStr
  neighborhood : Option JStr
  whatsapp : Option JStr
  satisfaction : Option JStr
  issue : Option JStr
  participateInterest : Option JStr
  priority : JStr
deriving DecidableEq, Repr

/-- The string `'Sim'`. -/
def sSim : JStr := "Sim".toList

/-- The string `'ENGAGED'`. -/
def sEngaged : JStr := "ENGAGED".toList

/-- The string `'NOT_WILLING'`. -/
def sNotWilling : JStr := "NOT_WILLING".toList

/-- The common projection used by both participation filters. -/
def participationProjection (priority : JStr) (c : Contact) : FilteredResident :=
  { name := c.name, neighborhood := c.neighborhood, whatsapp := c.whatsapp,
    satisfaction := c.survey.bind (fun s => s.satisfaction),
    issue := c.survey.bind (fun s => s.issue),
    participateInterest := c.survey.bind (fun s => s.participate),
    priority := priority }

/-- `filterParticipationInterested` (services/ResidentFilterService.js):
keeps contacts with `contact.survey && contact.survey.participate === 'Sim'`
(strict string equality, no normalization), priority `ENGAGED`. -/
def filterParticipationInterested (contacts : List Contact) : List FilteredResident :=
  (contacts.filter (fun c =>
      match c.survey with
      | some s => decide (s.participate = some sSim)
      | none => false)).map (participationProjection sEngaged)

/-- The truthiness-plus-normalization test of
`filterParticipationNotInterested`: `participate` must be truthy and its
normalization must equal `'nao'` or `'no'`. -/
def notInterestedPred (c : Contact) : Bool :=
  match c.survey.bind (fun s => s.participate) with
  | none => false
  | some p =>
    if p.isEmpty then false
    else c.survey.isSome &&
      (decide (normalizeJS p = "nao".toList) || decide (normalizeJS p = "no".toList))

/-- `filterParticipationNotInterested` (services/ResidentFilterService.js):
normalizes `participate` (case-fold + diacritic strip) and keeps `'nao'`/`'no'`
answers, priority `NOT_WILLING`. -/
def filterParticipationNotInterested (contacts : List Contact) : List FilteredResident :=
  (contacts.filter notInterestedPred).map (participationProjection sNotWilling)

end ResidentFilterService

namespace ResidentFilterService

/-- `notInterestedPred` on a contact with survey `s` and participate `p`
reduces to the normalization test on `p`. -/
theorem notInterestedPred_eq (c : Contact) (s : Survey) (p : JStr)
    (hc : c.survey = some s) (hp : s.participate = some p) :
    notInterestedPred c
      = (!p.isEmpty &&
          (decide (normalizeJS p = "nao".toList) || decide (normalizeJS p = "no".toList))) := by
  unfold notInterestedPred
  rw [hc]
  by_cases he : p.isEmpty
  · simp [hp, he]
  · simp [hp, he]

/-- C8 (amended): the not-interested filter normalizes `participate`
(case/diacritic-insensitively selecting `'nao'`/`'no'`, priority
`NOT_WILLING`), but the interested filter compares `participate === 'Sim'`
strictly (priority `ENGAGED`): case variants of the yes-answer are NOT
treated identically by it. Both filters decompose record-wise. -/
theorem participation_filters_spec :
    (∀ (contacts : List Contact) (c : Contact),
      filterParticipationInterested (c :: contacts)
          = filterParticipationInterested [c] ++ filterParticipationInterested contacts ∧
      filterParticipationNotInterested (c :: contacts)
          = filterParticipationNotInterested [c] ++ filterParticipationNotInterested contacts)
    ∧ (∀ (c : Contact) (s : Survey), c.survey = some s →
        ((filterParticipationInterested [c] ≠ []) ↔ s.participate = some sSim) ∧
        (∀ fr ∈ filterParticipationInterested [c], fr.priority = sEngaged) ∧
        ((filterParticipationNotInterested [c] ≠ []) ↔
          (∃ p, s.participate = some p ∧ p ≠ [] ∧
            (normalizeJS p = "nao".toList ∨ normalizeJS p = "no".toList))) ∧
        (∀ fr ∈ filterParticipationNotInterested [c], fr.priority = sNotWilling))
    ∧ (∀ (c c' : Contact) (s s' : Survey) (p p' : JStr),
        c.survey = some s → c'.survey = some s' →
        s.participate = some p → s'.participate = some p' →
        normalizeJS p = normalizeJS p' → p ≠ [] → p' ≠ [] →
        ((filterParticipationNotInterested [c] ≠ [])
          ↔ (filterParticipationNotInterested [c'] ≠ []))) := by
  refine ⟨?_, ?_, ?_⟩
  · intro contacts c
    constructor
    · unfold filterParticipationInterested
      simp only [List.filter_cons, List.filter_nil]
      split_ifs <;> simp
    · unfold filterParticipationNotInterested
      simp only [List.filter_cons, List.filter_nil]
      split_ifs <;> simp
  · intro c s hc
    refine ⟨?_, ?_, ?_, ?_⟩
    · unfold filterParticipationInterested
      rw [show List.filter (fun c =>
            match c.survey with
            | some s => decide (s.participate = some sSim)
            | none => false) [c]
          = if (match c.survey with
                | some s => decide (s.participate = some sSim)
                | none => false) = true then [c] else [] from by
        rw [List.filter_cons]
        split_ifs <;> simp]
      rw [hc]
      simp only
      by_cases hp : s.participate = some sSim <;> simp [hp]
    · intro fr hfr
      unfold filterParticipationInterested at hfr
      simp only [List.mem_map] at hfr
      obtain ⟨x, _, hx⟩ := hfr
      rw [← hx]
      rfl
    · unfold filterParticipationNotInterested
      rw [show List.filter notInterestedPred [c]
          = if notInterestedPred c = true then [c] else [] from by
        rw [List.filter_cons]
        split_ifs <;> simp]
      cases hp : s.participate with
      | none =>
        have hpred : notInterestedPred c = false := by
          unfold notInterestedPred
          rw [hc]
          simp [hp]
        rw [hpred]
        simp [hp]
      | some p =>
        rw [notInterestedPred_eq c s p hc hp]
        by_cases he : p.isEmpty
        · have hpe : p = [] := by
            cases p with
            | nil => rfl
            | cons a l => simp [List.isEmpty] at he
          subst hpe
          simp [hp, he]
        · have hpne : p ≠ [] := by
            intro hcon
            subst hcon
            simp at he
          by_cases hn : normalizeJS p = "nao".toList ∨ normalizeJS p = "no".toList
          · simp only [he, Bool.not_false, Bool.true_and]
            constructor
            · intro _
              exact ⟨p, rfl, hpne, hn⟩
            · intro _
              rcases hn with h | h <;> simp [h]
          · push_neg at hn
            simp only [he, Bool.not_false, Bool.true_and, hn.1, hn.2]
            simp [hp, hpne, hn.1, hn.2]
            exact ⟨hn.1, hn.2⟩
    · intro fr hfr
      unfold filterParticipationNotInterested at hfr
      simp only [List.mem_map] at hfr
      obtain ⟨x, _, hx⟩ := hfr
      rw [← hx]
      rfl
  · intro c c' s s' p p' hc hc' hp hp' hnorm hne hne'
    unfold filterParticipationNotInterested
    simp only [List.filter_cons, List.filter_nil]
    rw [notInterestedPred_eq c s p hc hp, notInterestedPred_eq c' s' p' hc' hp']
    have h1 : p.isEmpty = false := by
      cases p with
      | nil => exact absurd rfl hne
      | cons a l => rfl
    have h2 : p'.isEmpty = false := by
      cases p' with
      | nil => exact absurd rfl hne'
      | cons a l => rfl
    rw [h1, h2, hnorm]
    by_cases hn : (decide (normalizeJS p' = "nao".toList)
        || decide (normalizeJS p' = "no".toList)) = true <;> simp [hn]

end ResidentFilterService

namespace ResidentFilterService

/-- A survey answering participation with the exact string `'Sim'`. -/
def c8SurveySim : Survey :=
  { satisfaction := none, issue := none, participate := some ("Sim".toList) }

/-- A survey answering participation with the lower-case variant `'sim'`. -/
def c8SurveyLower : Survey :=
  { satisfaction := none, issue := none, participate := some ("sim".toList) }

/-- A survey answering participation with the upper-case accented `'NÃO'`. -/
def c8SurveyNAO : Survey :=
  { satisfaction := none, issue := none, participate := some ("NÃO".toList) }

/-- A survey answering participation with the bare `'nao'`. -/
def c8SurveyNao : Survey :=
  { satisfaction := none, issue := none, participate := some ("nao".toList) }

/-- Contact with participate `'Sim'`. -/
def c8ContactSim : Contact :=
  { name := none, neighborhood := none, whatsapp := none, survey := some c8SurveySim }

/-- Contact with participate `'sim'`. -/
def c8ContactLower : Contact :=
  { name := none, neighborhood := none, whatsapp := none, survey := some c8SurveyLower }

/-- Contact with participate `'NÃO'`. -/
def c8ContactNAO : Contact :=
  { name := none, neighborhood := none, whatsapp := none, survey := some c8SurveyNAO }

/-- Contact with participate `'nao'`. -/
def c8ContactNao : Contact :=
  { name := none, neighborhood := none, whatsapp := none, survey := some c8SurveyNao }

/-- Counterexample to C8 as stated: `'sim'` and `'Sim'` normalize identically,
yet `filterParticipationInterested` keeps only the exact `'Sim'` record and
drops the `'sim'` record — the interested filter does not operate on the
normalized participate value (while the not-interested filter does treat
`'NÃO'` and `'nao'` identically). -/
theorem participation_filters_counterexample :
    normalizeJS ("sim".toList) = normalizeJS ("Sim".toList) ∧
    filterParticipationInterested [c8ContactSim] ≠ [] ∧
    filterParticipationInterested [c8ContactLower] = [] ∧
    filterParticipationNotInterested [c8ContactNAO] ≠ [] ∧
    filterParticipationNotInterested [c8ContactNao] ≠ [] := by
  decide

/-- Concrete instantiation of `participation_filters_spec`: its hypotheses are
discharged on the `'Sim'` and `'NÃO'`/`'nao'` contacts. -/
theorem participation_filters_spec_witness :
    (filterParticipationInterested [c8ContactSim] ≠ []) ∧
    ((filterParticipationNotInterested [c8ContactNAO] ≠ [])
      ↔ (filterParticipationNotInterested [c8ContactNao] ≠ [])) := by
  constructor
  · exact ((participation_filters_spec.2.1 c8ContactSim c8SurveySim rfl).1).mpr rfl
  · exact participation_filters_spec.2.2 c8ContactNAO c8ContactNao c8SurveyNAO c8SurveyNao
      ("NÃO".toList) ("nao".toList) rfl rfl rfl rfl (by decide) (by decide) (by decide)
end ResidentFilterService

namespace ResidentFilterService

/-- The analysis-keyword exclusion list of `isNameSearchQuery` /
`extractNameFromQuery` (kept verbatim: the accented entries can never occur
in a normalized query, as in the source). -/
def analysisKeywords : List JStr :=
  ["análise".toList, "analysis".toList, "relatório".toList, "report".toList,
   "estatística".toList, "statistics".toList, "satisfação".toList, "satisfaction".toList,
   "engajamento".toList, "engagement".toList, "bairro".toList, "neighborhood".toList,
   "bairros".toList, "neighborhoods".toList, "resumo".toList, "summary".toList,
   "overview".toList, "visão".toList, "view".toList, "visao".toList,
   "problema".toList, "problem".toList, "problemas".toList, "problems".toList,
   "questão".toList, "questao".toList, "question".toList, "questões".toList,
   "questoes".toList, "questions".toList, "participação".toList, "participacao".toList,
   "participation".toList, "idade".toList, "age".toList, "faixa etária".toList,
   "faixa etaria".toList, "age bracket".toList]

/-- The search-verb list of `isNameSearchQuery`. -/
def searchVerbs : List JStr :=
  ["encontre".toList, "encontrar".toList, "encontra".toList, "busque".toList,
   "buscar".toList, "busca".toList, "find".toList, "search".toList,
   "procure".toList, "procurar".toList, "procura".toList, "mostre".toList,
   "mostrar".toList, "mostra".toList, "show".toList, "exiba".toList,
   "exibir".toList, "traga".toList, "trazer".toList, "quem e".toList,
   "quem eh".toList, "quem e o".toList, "quem eh o".toList]

/-- The stop-word list of `isNameSearchQuery`. -/
def commonWords : List JStr :=
  ["o".toList, "a".toList, "os".toList, "as".toList, "de".toList, "do".toList,
   "da".toList, "dos".toList, "das".toList, "em".toList, "no".toList, "na".toList,
   "the".toList, "a".toList, "an".toList, "me".toList, "meu".toList, "minha".toList,
   "meus".toList, "minhas".toList, "um".toList, "uma".toList, "uns".toList,
   "umas".toList, "que".toList, "qual".toList, "quais".toList]

/-- The character class `/[a-záàâãéèêíìîóòôõúùûç]/i` of `isNameSearchQuery`. -/
def isPtLetter (c : Char) : Bool :=
  (decide ('a' ≤ jsToLower c) && decide (jsToLower c ≤ 'z')) ||
    (['á', 'à', 'â', 'ã', 'é', 'è', 'ê', 'í', 'ì', 'î', 'ó', 'ò', 'ô', 'õ',
      'ú', 'ù', 'û', 'ç']).contains (jsToLower c)

/-- `isNameSearchQuery(query)` from `services/ResidentFilterService.js`:
no analysis keyword in the normalized query, a search verb present, and after
removing stopwords/verbs/keyword-overlapping words at least one residual word
of length ≥ 2 containing a letter. -/
def isNameSearchQuery (query : JStr) : Bool :=
  let qn := normalizeJS query
  if analysisKeywords.any (fun kw => containsSub qn kw) then false
  else
    let hasSearchVerb := searchVerbs.any (fun v => containsSub qn v)
    let words := (jsSplitWs query).filter (fun w =>
      let n := normalizeJS w
      !(commonWords.contains n) && !(searchVerbs.contains n) &&
        !(analysisKeywords.any (fun kw => containsSub n kw || containsSub kw n)))
    if hasSearchVerb && decide (1 ≤ words.length) then
      decide (1 ≤ (words.filter (fun w =>
        decide (2 ≤ w.length) && w.any isPtLetter)).length)
    else false

/-- Branch 1 of `determineFilterType`: participation + a negation marker. -/
def hasNotInterestedPattern (qn : JStr) : Bool :=
  containsSub qn ("particip".toList) &&
    (containsSub qn ("nao".toList) || containsSub qn ("não".toList) ||
     containsSub qn ("not".toList) || containsSub qn ("sem interesse".toList) ||
     containsSub qn ("nao interessados".toList) ||
     containsSub qn ("nao querem participar".toList) ||
     containsSub qn ("nao participaria".toList) ||
     containsSub qn ("não querem participar".toList) ||
     containsSub qn ("não quer participar".toList) ||
     containsSub qn ("não participaria".toList))

/-- Branch 2 of `determineFilterType`: participation interest, no negation. -/
def hasInterestedPattern (qn : JStr) : Bool :=
  (containsSub qn ("particip".toList) || containsSub qn ("interested".toList) ||
   containsSub qn ("interessad".toList) || containsSub qn ("event".toList)) &&
  !(containsSub qn ("nao".toList) || containsSub qn ("não".toList) ||
    containsSub qn ("not".toList) || containsSub qn ("sem interesse".toList) ||
    containsSub qn ("nao interessados".toList))

/-- Branch 4 of `determineFilterType`: dissatisfaction vocabulary. -/
def hasDissatisfiedPattern (qn : JStr) : Bool :=
  containsSub qn ("dissatisfied".toList) || containsSub qn ("unsatisfied".toList) ||
  containsSub qn ("insatisfied".toList) || containsSub qn ("unhappy".toList) ||
  containsSub qn ("insatisf".toList) || containsSub qn ("insatisfeito".toList) ||
  containsSub qn ("insatisfeitos".toList)

/-- Branch 5 of `determineFilterType`: satisfaction vocabulary, no
dissatisfaction vocabulary. -/
def hasSatisfiedPattern (qn : JStr) : Bool :=
  (containsSub qn ("satisfied".toList) || containsSub qn ("satisfeito".toList) ||
   containsSub qn ("satisfeitos".toList)) &&
  !(containsSub qn ("dissatisfied".toList) || containsSub qn ("unsatisfied".toList) ||
    containsSub qn ("insatisfied".toList) || containsSub qn ("unhappy".toList) ||
    containsSub qn ("insatisfeito".toList) || containsSub qn ("insatisfeitos".toList))

/-- Branch 6 of `determineFilterType`: generic listing vocabulary. -/
def hasListingPattern (qn : JStr) : Bool :=
  containsSub qn ("list".toList) || containsSub qn ("show".toList) ||
  containsSub qn ("names".toList) || containsSub qn ("listar".toList) ||
  containsSub qn ("mostre".toList) || containsSub qn ("mostrar".toList) ||
  containsSub qn ("exibir".toList)

/-- The filter kinds returned by `determineFilterType` (`none` renders JS
`null`). -/
inductive FilterType where
  | name_search
  | dissatisfied
  | satisfied
  | participation_interested
  | participation_not_interested
  | all_with_survey
deriving DecidableEq, Repr

/-- `determineFilterType(query)` from `services/ResidentFilterService.js`:
the fixed-priority first-match-wins chain. -/
def determineFilterType (query : JStr) : Option FilterType :=
  let qn := normalizeJS query
  if hasNotInterestedPattern qn then some FilterType.participation_not_interested
  else if hasInterestedPattern qn then some FilterType.participation_interested
  else if isNameSearchQuery query then some FilterType.name_search
  else if hasDissatisfiedPattern qn then some FilterType.dissatisfied
  else if hasSatisfiedPattern qn then some FilterType.satisfied
  else if hasListingPattern qn then some FilterType.all_with_survey
  else none

end ResidentFilterService

namespace ResidentFilterService

/-- C5: `determineFilterType` evaluates its filter kinds in the fixed priority
order participation-not-interested > participation-interested > name-search >
dissatisfied > satisfied > all-with-survey > null, first match wins; in
particular a query matching both the not-interested pattern and the
name-search test resolves to `participation_not_interested`, never
`name_search`. -/
theorem determineFilterType_priority_spec :
    ∀ (query : JStr),
      (determineFilterType query = some FilterType.participation_not_interested
        ↔ hasNotInterestedPattern (normalizeJS query) = true) ∧
      (determineFilterType query = some FilterType.participation_interested
        ↔ hasNotInterestedPattern (normalizeJS query) = false ∧
          hasInterestedPattern (normalizeJS query) = true) ∧
      (determineFilterType query = some FilterType.name_search
        ↔ hasNotInterestedPattern (normalizeJS query) = false ∧
          hasInterestedPattern (normalizeJS query) = false ∧
          isNameSearchQuery query = true) ∧
      (determineFilterType query = some FilterType.dissatisfied
        ↔ hasNotInterestedPattern (normalizeJS query) = false ∧
          hasInterestedPattern (normalizeJS query) = false ∧
          isNameSearchQuery query = false ∧
          hasDissatisfiedPattern (normalizeJS query) = true) ∧
      (determineFilterType query = some FilterType.satisfied
        ↔ hasNotInterestedPattern (normalizeJS query) = false ∧
          hasInterestedPattern (normalizeJS query) = false ∧
          isNameSearchQuery query = false ∧
          hasDissatisfiedPattern (normalizeJS query) = false ∧
          hasSatisfiedPattern (normalizeJS query) = true) ∧
      (determineFilterType query = some FilterType.all_with_survey
        ↔ hasNotInterestedPattern (normalizeJS query) = false ∧
          hasInterestedPattern (normalizeJS query) = false ∧
          isNameSearchQuery query = false ∧
          hasDissatisfiedPattern (normalizeJS query) = false ∧
          hasSatisfiedPattern (normalizeJS query) = false ∧
          hasListingPattern (normalizeJS query) = true) ∧
      (determineFilterType query = none
        ↔ hasNotInterestedPattern (normalizeJS query) = false ∧
          hasInterestedPattern (normalizeJS query) = false ∧
          isNameSearchQuery query = false ∧
          hasDissatisfiedPattern (normalizeJS query) = false ∧
          hasSatisfiedPattern (normalizeJS query) = false ∧
          hasListingPattern (normalizeJS query) = false) ∧
      (hasNotInterestedPattern (normalizeJS query) = true →
        isNameSearchQuery query = true →
        determineFilterType query = some FilterType.participation_not_interested ∧
        determineFilterType query ≠ some FilterType.name_search) := by
  intro query
  unfold determineFilterType
  cases h1 : hasNotInterestedPattern (normalizeJS query) <;>
    cases h2 : hasInterestedPattern (normalizeJS query) <;>
      cases h3 : isNameSearchQuery query <;>
        cases h4 : hasDissatisfiedPattern (normalizeJS query) <;>
          cases h5 : hasSatisfiedPattern (normalizeJS query) <;>
            cases h6 : hasListingPattern (normalizeJS query) <;>
              simp_all

/-- The priority-order test query of the spec: both a "não querem participar"
pattern and a search verb with residual name-like words. -/
def c5Query : JStr := "Busque moradores que não querem participar".toList

/-- Concrete instantiation of `determineFilterType_priority_spec` on
`c5Query`, which matches both the not-interested pattern and the name-search
test, and resolves to `participation_not_interested`. -/
theorem determineFilterType_priority_spec_witness :
    determineFilterType c5Query = some FilterType.participation_not_interested ∧
    determineFilterType c5Query ≠ some FilterType.name_search := by
  have h := (determineFilterType_priority_spec c5Query).2.2.2.2.2.2.2
  exact h (by decide) (by decide)

end ResidentFilterService

namespace MunicipalAnalysisEngine

/-- The fixed satisfaction weight map of `analyzeSatisfaction`
(unknown labels default to 3 via `weights[level] || 3`). -/
def weights (level : JStr) : ℕ :=
  if level = "Muito satisfeito".toList then 5
  else if level = "Satisfeito".toList then 4
  else if level = "Neutro".toList then 3
  else if level = "Insatisfeito".toList then 2
  else if level = "Muito insatisfeito".toList then 1
  else 3

/-- `totalScore`: the weighted sum accumulated over the breakdown entries. -/
def totalScoreOf (breakdown : List (JStr × ℕ)) : ℕ :=
  (breakdown.map (fun b => weights b.1 * b.2)).sum

/-- `totalResponses`: the plain count sum over the breakdown entries. -/
def totalResponsesOf (breakdown : List (JStr × ℕ)) : ℕ :=
  (breakdown.map (fun b => b.2)).sum

/-- `averageScoreNumeric`: `totalResponses > 0 ? totalScore / totalResponses : 0`. -/
def averageScoreNumeric (breakdown : List (JStr × ℕ)) : ℚ :=
  if 0 < totalResponsesOf breakdown then
    (totalScoreOf breakdown : ℚ) / (totalResponsesOf breakdown : ℚ)
  else 0

/-- `averageScore`: `Number(averageScoreNumeric.toFixed(2))`. -/
def averageScore (breakdown : List (JStr × ℕ)) : ℚ :=
  round2 (averageScoreNumeric breakdown)

/-- The dissatisfaction tiers of `calculateDissatisfactionStats`. -/
inductive DissTier where
  | low
  | elevated
  | critical
deriving DecidableEq, Repr

/-- `dissCount` of `calculateDissatisfactionStats`: counts of the two
dissatisfied levels. -/
def dissatisfiedCount (breakdown : List (JStr × ℕ)) : ℕ :=
  ((breakdown.filter (fun b =>
      b.1 = "Muito insatisfeito".toList ∨ b.1 = "Insatisfeito".toList)).map
    (fun b => b.2)).sum

/-- `percent` of `calculateDissatisfactionStats`:
`total > 0 ? dissCount / total * 100 : 0`. -/
def dissatisfiedPercent (breakdown : List (JStr × ℕ)) : ℚ :=
  if 0 < totalResponsesOf breakdown then
    (dissatisfiedCount breakdown : ℚ) / (totalResponsesOf breakdown : ℚ) * 100
  else 0

/-- `tier` of `calculateDissatisfactionStats`: `critical` at percent ≥ 40,
`elevated` at percent ≥ 25, else `low`. -/
def dissatisfactionTier (breakdown : List (JStr × ℕ)) : DissTier :=
  if 40 ≤ dissatisfiedPercent breakdown then DissTier.critical
  else if 25 ≤ dissatisfiedPercent breakdown then DissTier.elevated
  else DissTier.low

/-- The breakdown fixture of the spec: counts 10/20/5/3/2 (total 40). -/
def c6Breakdown : List (JStr × ℕ) :=
  [("Muito satisfeito".toList, 10), ("Satisfeito".toList, 20), ("Neutro".toList, 5),
   ("Insatisfeito".toList, 3), ("Muito insatisfeito".toList, 2)]

end MunicipalAnalysisEngine

namespace MunicipalAnalysisEngine

/-- C6: `analyzeSatisfaction` computes the average as the (2-decimal-rounded)
weighted mean with weights {Muito satisfeito 5, Satisfeito 4, Neutro 3,
Insatisfeito 2, Muito insatisfeito 1}; `dissatisfactionTier` is `critical`
iff the dissatisfied percentage ≥ 40, `elevated` iff 25 ≤ it < 40, else
`low`; on the fixture {10,20,5,3,2} (total 40) the results are 3.83, 12.5
and `low`. -/
theorem analyzeSatisfaction_spec :
    (weights ("Muito satisfeito".toList) = 5 ∧ weights ("Satisfeito".toList) = 4 ∧
     weights ("Neutro".toList) = 3 ∧ weights ("Insatisfeito".toList) = 2 ∧
     weights ("Muito insatisfeito".toList) = 1) ∧
    (∀ breakdown : List (JStr × ℕ),
      (0 < totalResponsesOf breakdown →
        averageScore breakdown
          = round2 ((totalScoreOf breakdown : ℚ) / (totalResponsesOf breakdown : ℚ))) ∧
      (dissatisfactionTier breakdown = DissTier.critical
        ↔ 40 ≤ dissatisfiedPercent breakdown) ∧
      (dissatisfactionTier breakdown = DissTier.elevated
        ↔ 25 ≤ dissatisfiedPercent breakdown ∧ dissatisfiedPercent breakdown < 40) ∧
      (dissatisfactionTier breakdown = DissTier.low
        ↔ dissatisfiedPercent breakdown < 25)) ∧
    (averageScore c6Breakdown = 383/100 ∧ dissatisfiedPercent c6Breakdown = 25/2 ∧
     dissatisfactionTier c6Breakdown = DissTier.low) := by
  have hwt : weights ("Muito satisfeito".toList) = 5 ∧ weights ("Satisfeito".toList) = 4 ∧
      weights ("Neutro".toList) = 3 ∧ weights ("Insatisfeito".toList) = 2 ∧
      weights ("Muito insatisfeito".toList) = 1 := by
    refine ⟨rfl, ?_, ?_, ?_, ?_⟩ <;> decide
  have hts : totalScoreOf c6Breakdown = 153 := by decide
  have htr : totalResponsesOf c6Breakdown = 40 := by decide
  have hdc : dissatisfiedCount c6Breakdown = 5 := by decide
  have havg : averageScore c6Breakdown = 383/100 := by
    unfold averageScore averageScoreNumeric
    rw [hts, htr]
    norm_num [round2, round_eq]
  have hpct : dissatisfiedPercent c6Breakdown = 25/2 := by
    unfold dissatisfiedPercent
    rw [hdc, htr]
    norm_num
  refine ⟨hwt, ?_, havg, hpct, ?_⟩
  · intro breakdown
    refine ⟨?_, ?_, ?_, ?_⟩
    · intro h
      unfold averageScore averageScoreNumeric
      rw [if_pos h]
    · unfold dissatisfactionTier
      split_ifs with h40 h25
      · simp [h40]
      · simp [h40]
      · simp [h40]
    · unfold dissatisfactionTier
      split_ifs with h40 h25
      · simp [show ¬ (dissatisfiedPercent breakdown < 40) from not_lt.2 h40]
      · simp [h25, not_le.1 h40]
      · simp [h25]
    · unfold dissatisfactionTier
      split_ifs with h40 h25
      · simp [show ¬ (dissatisfiedPercent breakdown < 25) from not_lt.2 (by linarith)]
      · simp [show ¬ (dissatisfiedPercent breakdown < 25) from not_lt.2 h25]
      · simp [not_le.1 h25]
  · unfold dissatisfactionTier
    rw [hpct]
    rw [if_neg (by norm_num), if_neg (by norm_num)]

/-- Concrete instantiation of `analyzeSatisfaction_spec`: the weighted-mean
formula hypothesis is discharged on the fixture (total 40 > 0). -/
theorem analyzeSatisfaction_spec_witness :
    averageScore c6Breakdown
      = round2 ((totalScoreOf c6Breakdown : ℚ) / (totalResponsesOf c6Breakdown : ℚ)) :=
  ((analyzeSatisfaction_spec.2.1 c6Breakdown).1) (by decide)

end MunicipalAnalysisEngine

namespace MunicipalAnalysisEngine

/-- Per-neighborhood raw tallies from `getNeighborhoodRawData`. -/
structure NeighborhoodStats where
  total : ℕ
  sent : ℕ
  clicked : ℕ
  answered : ℕ
deriving DecidableEq, Repr

/-- A neighborhood row with its computed rates. -/
structure NeighborhoodEntry where
  neighborhood : JStr
  total : ℕ
  sent : ℕ
  clicked : ℕ
  answered : ℕ
  responseRate : ℚ
  engagementRate : ℚ
deriving Repr

/-- `responseRate = total > 0 ? answered / total * 100 : 0`. -/
def responseRateOf (st : NeighborhoodStats) : ℚ :=
  if 0 < st.total then (st.answered : ℚ) / (st.total : ℚ) * 100 else 0

/-- `engagementRate = sent > 0 ? clicked / sent * 100 : 0`. -/
def engagementRateOf (st : NeighborhoodStats) : ℚ :=
  if 0 < st.sent then (st.clicked : ℚ) / (st.sent : ℚ) * 100 else 0

/-- The `neighborhoodsRaw` row built from one `[name, stats]` entry. -/
def toEntry (x : JStr × NeighborhoodStats) : NeighborhoodEntry :=
  { neighborhood := x.1, total := x.2.total, sent := x.2.sent, clicked := x.2.clicked,
    answered := x.2.answered, responseRate := responseRateOf x.2,
    engagementRate := engagementRateOf x.2 }

/-- `byResponse`: a copy sorted descending by response rate
(`sort((a, b) => b.responseRate - a.responseRate)`). -/
def sortByResponse (l : List NeighborhoodEntry) : List NeighborhoodEntry :=
  List.insertionSort (fun a b => b.responseRate ≤ a.responseRate) l

/-- `avgResponse`: mean response rate over a row list (0 when empty). -/
def avgResponseOf (l : List NeighborhoodEntry) : ℚ :=
  if l.length = 0 then 0
  else ((l.map NeighborhoodEntry.responseRate).sum) / (l.length : ℚ)

/-- The equity verdict computed inside `generateNeighborhoodInsights`: its own
(unclamped) `avgResponseRate - 10` threshold over the sorted rows; `unknown`
for no rows, `concern` when the low performers exceed 40% of rows, `moderate`
when some exist, `excellent` when none do. -/
def generateNeighborhoodInsightsEquity (sorted : List NeighborhoodEntry) : JStr :=
  if sorted.length = 0 then "unknown".toList
  else
    let avgResponseRate := ((sorted.map NeighborhoodEntry.responseRate).sum) /
      ((sorted.map NeighborhoodEntry.responseRate).length : ℚ)
    let lowPerforming := sorted.filter (fun n => n.responseRate < avgResponseRate - 10)
    if 0 < lowPerforming.length then
      if ((sorted.map NeighborhoodEntry.responseRate).length : ℚ) * (4/10)
          < (lowPerforming.length : ℚ) then "concern".toList
      else "moderate".toList
    else "excellent".toList

/-- The outputs of `analyzeNeighborhoods` the claims are about
(`needsAttention` rows are kept unprojected; the source additionally projects
them to name and a 1-decimal display string). -/
structure NeighborhoodAnalysis where
  needsAttention : List NeighborhoodEntry
  equityAssessment : JStr
  avgResponseRate : ℚ
  attentionCutoff : ℚ
  totalNeighborhoods : ℕ
deriving Repr

/-- `analyzeNeighborhoods` (services/MunicipalAnalysisEngine.js): rates per
neighborhood, the clamped attention cutoff `max(0, avg − 10)`, the
`needsAttention` filter over the raw rows, and the insight-side equity
verdict over the sorted copy. -/
def analyzeNeighborhoods (rawData : List (JStr × NeighborhoodStats)) : NeighborhoodAnalysis :=
  let neighborhoodsRaw := rawData.map toEntry
  let byResponse := sortByResponse neighborhoodsRaw
  let avgResponse := avgResponseOf byResponse
  let attentionCutoff := max 0 (avgResponse - 10)
  { needsAttention := neighborhoodsRaw.filter (fun n => n.responseRate < attentionCutoff),
    equityAssessment := generateNeighborhoodInsightsEquity byResponse,
    avgResponseRate := avgResponse,
    attentionCutoff := attentionCutoff,
    totalNeighborhoods := neighborhoodsRaw.length }

end MunicipalAnalysisEngine

namespace MunicipalAnalysisEngine

/-- The sorted copy is a permutation of the input rows. -/
theorem sortByResponse_perm (l : List NeighborhoodEntry) :
    List.Perm (sortByResponse l) l :=
  List.perm_insertionSort _ l

/-- Mean response rate is invariant under the sort. -/
theorem avgResponseOf_sort (l : List NeighborhoodEntry) :
    avgResponseOf (sortByResponse l) = avgResponseOf l := by
  unfold avgResponseOf
  rw [(sortByResponse_perm l).length_eq,
    ((sortByResponse_perm l).map NeighborhoodEntry.responseRate).sum_eq]

/-- Filter counts are invariant under the sort. -/
theorem filter_length_sort (l : List NeighborhoodEntry) (p : NeighborhoodEntry → Bool) :
    ((sortByResponse l).filter p).length = (l.filter p).length :=
  ((sortByResponse_perm l).filter p).length_eq

/-- Response rates are never negative. -/
theorem responseRateOf_nonneg (st : NeighborhoodStats) : 0 ≤ responseRateOf st := by
  unfold responseRateOf
  split_ifs with h
  · positivity
  · exact le_refl 0

/-- For a nonnegative rate, the clamped cutoff test agrees with the unclamped
one. -/
theorem lt_max_zero_iff (r a : ℚ) (hr : 0 ≤ r) : r < max 0 a ↔ r < a := by
  rcases le_total a 0 with h | h
  · rw [max_eq_left h]
    constructor
    · intro hc
      exact absurd hc (not_lt.2 hr)
    · intro hc
      exact absurd (lt_of_lt_of_le hc h) (not_lt.2 hr)
  · rw [max_eq_right h]

/-- The insight-side equity verdict over the sorted copy, characterized on
the unsorted rows (for a nonempty row list). -/
theorem equity_char (l : List NeighborhoodEntry) (hl : l ≠ []) :
    generateNeighborhoodInsightsEquity (sortByResponse l)
      = (if 0 < ((l.filter (fun n => n.responseRate < avgResponseOf l - 10)).length : ℕ) then
          (if (l.length : ℚ) * (4/10)
              < ((l.filter (fun n => n.responseRate < avgResponseOf l - 10)).length : ℚ)
           then "concern".toList else "moderate".toList)
         else "excellent".toList) := by
  have hnil : ¬ l.length = 0 := by
    intro hcon
    exact hl (List.length_eq_zero.mp hcon)
  have hlen : (sortByResponse l).length = l.length := (sortByResponse_perm l).length_eq
  have hlen0 : ¬ (sortByResponse l).length = 0 := by
    rw [hlen]
    exact hnil
  have hsum : ((sortByResponse l).map NeighborhoodEntry.responseRate).sum
      = (l.map NeighborhoodEntry.responseRate).sum :=
    ((sortByResponse_perm l).map NeighborhoodEntry.responseRate).sum_eq
  have havg : (List.map NeighborhoodEntry.responseRate l).sum / (l.length : ℚ)
      = avgResponseOf l := by
    unfold avgResponseOf
    rw [if_neg hnil]
  unfold generateNeighborhoodInsightsEquity
  rw [if_neg hlen0]
  simp only [List.length_map, hlen, hsum, havg]
  rw [filter_length_sort l (fun n => decide (n.responseRate < avgResponseOf l - 10))]

end MunicipalAnalysisEngine

namespace MunicipalAnalysisEngine

/-- Rows produced by `toEntry` have nonnegative response rates. -/
theorem mem_map_toEntry_nonneg (rawData : List (JStr × NeighborhoodStats))
    (n : NeighborhoodEntry) (hn : n ∈ rawData.map toEntry) : 0 ≤ n.responseRate := by
  obtain ⟨x, _, rfl⟩ := List.mem_map.mp hn
  exact responseRateOf_nonneg x.2

/-- Because rates are nonnegative, the clamped `needsAttention` filter agrees
with the unclamped mean-minus-10 filter. -/
theorem needsAttention_unclamped (rawData : List (JStr × NeighborhoodStats)) :
    (analyzeNeighborhoods rawData).needsAttention
      = (rawData.map toEntry).filter
          (fun n => n.responseRate < (analyzeNeighborhoods rawData).avgResponseRate - 10) := by
  unfold analyzeNeighborhoods
  simp only
  apply List.filter_congr
  intro n hn
  simp only [decide_eq_decide]
  exact lt_max_zero_iff _ _ (mem_map_toEntry_nonneg rawData n hn)

/-- The mean exposed by `analyzeNeighborhoods` equals the mean over the
unsorted rows. -/
theorem avgResponseRate_eq (rawData : List (JStr × NeighborhoodStats)) :
    (analyzeNeighborhoods rawData).avgResponseRate = avgResponseOf (rawData.map toEntry) := by
  unfold analyzeNeighborhoods
  simp only
  exact avgResponseOf_sort (rawData.map toEntry)

/-- The equity verdict of `analyzeNeighborhoods`, characterized by the
`needsAttention` count (nonempty data). -/
theorem equity_of_counts (rawData : List (JStr × NeighborhoodStats)) (h : rawData ≠ []) :
    (analyzeNeighborhoods rawData).equityAssessment
      = (if 0 < (analyzeNeighborhoods rawData).needsAttention.length then
          (if ((analyzeNeighborhoods rawData).totalNeighborhoods : ℚ) * (4/10)
              < ((analyzeNeighborhoods rawData).needsAttention.length : ℚ)
           then "concern".toList else "moderate".toList)
         else "excellent".toList) := by
  have hraw : rawData.map toEntry ≠ [] := by
    intro hcon
    exact h (List.map_eq_nil_iff.mp hcon)
  have hlen : (analyzeNeighborhoods rawData).needsAttention.length
      = ((rawData.map toEntry).filter
          (fun n => n.responseRate < avgResponseOf (rawData.map toEntry) - 10)).length := by
    rw [needsAttention_unclamped, avgResponseRate_eq]
  have htot : (analyzeNeighborhoods rawData).totalNeighborhoods
      = (rawData.map toEntry).length := by
    unfold analyzeNeighborhoods
    simp only
  have hequ : (analyzeNeighborhoods rawData).equityAssessment
      = generateNeighborhoodInsightsEquity (sortByResponse (rawData.map toEntry)) := by
    unfold analyzeNeighborhoods
    simp only
  rw [hequ, equity_char (rawData.map toEntry) hraw, hlen, htot]

end MunicipalAnalysisEngine

namespace MunicipalAnalysisEngine

/-- The neighborhood fixture of the spec: response rates 90, 85, 40, 38. -/
def c7Data : List (JStr × NeighborhoodStats) :=
  [("A".toList, { total := 10, sent := 0, clicked := 0, answered := 9 }),
   ("B".toList, { total := 20, sent := 0, clicked := 0, answered := 17 }),
   ("C".toList, { total := 10, sent := 0, clicked := 0, answered := 4 }),
   ("D".toList, { total := 50, sent := 0, clicked := 0, answered := 19 })]

/-- The fixture's response rates are 90, 85, 40 and 38. -/
theorem c7_rates : (c7Data.map toEntry).map NeighborhoodEntry.responseRate
    = [90, 85, 40, 38] := by
  simp only [c7Data, List.map_cons, List.map_nil, toEntry, responseRateOf]
  norm_num

/-- The fixture mean is 63.25. -/
theorem c7_avg : avgResponseOf (c7Data.map toEntry) = 253/4 := by
  unfold avgResponseOf
  rw [c7_rates]
  norm_num [c7Data]

/-- The fixture's `needsAttention` rows are exactly the 40- and 38-rate rows. -/
theorem c7_needsAttention_len :
    (analyzeNeighborhoods c7Data).needsAttention.length = 2 := by
  rw [needsAttention_unclamped, avgResponseRate_eq, c7_avg]
  simp only [c7Data, List.map_cons, List.map_nil, toEntry, responseRateOf,
    List.filter_cons, List.filter_nil]
  norm_num

/-- The fixture's clamped cutoff is 53.25. -/
theorem c7_cutoff : (analyzeNeighborhoods c7Data).attentionCutoff = 213/4 := by
  have h : (analyzeNeighborhoods c7Data).attentionCutoff
      = max 0 ((analyzeNeighborhoods c7Data).avgResponseRate - 10) := by
    unfold analyzeNeighborhoods
    simp only
  rw [h, avgResponseRate_eq, c7_avg]
  rw [max_eq_right (by norm_num)]
  norm_num

end MunicipalAnalysisEngine

namespace MunicipalAnalysisEngine

/-- C7 (amended): for a nonempty record set, `analyzeNeighborhoods` flags as
`needsAttention` exactly the neighborhoods with response rate below
mean − 10, and `equityAssessment` is `concern` iff more than 40% of
neighborhoods fall below that cutoff, `excellent` iff none do, `moderate`
otherwise; an empty record set yields equity `unknown`, not `excellent`. On
the fixture with rates [90, 85, 40, 38]: mean 63.25, cutoff 53.25, exactly 2
flagged, equity `concern`. -/
theorem analyzeNeighborhoods_spec :
    (∀ rawData : List (JStr × NeighborhoodStats), rawData ≠ [] →
      ((analyzeNeighborhoods rawData).needsAttention
        = (rawData.map toEntry).filter
            (fun n => n.responseRate < (analyzeNeighborhoods rawData).avgResponseRate - 10)) ∧
      ((analyzeNeighborhoods rawData).equityAssessment = "concern".toList
        ↔ ((analyzeNeighborhoods rawData).totalNeighborhoods : ℚ) * (4/10)
            < ((analyzeNeighborhoods rawData).needsAttention.length : ℚ)) ∧
      ((analyzeNeighborhoods rawData).equityAssessment = "excellent".toList
        ↔ (analyzeNeighborhoods rawData).needsAttention.length = 0) ∧
      ((analyzeNeighborhoods rawData).equityAssessment = "moderate".toList
        ↔ 0 < (analyzeNeighborhoods rawData).needsAttention.length ∧
          ¬ (((analyzeNeighborhoods rawData).totalNeighborhoods : ℚ) * (4/10)
              < ((analyzeNeighborhoods rawData).needsAttention.length : ℚ))))
    ∧ ((analyzeNeighborhoods c7Data).avgResponseRate = 253/4 ∧
       (analyzeNeighborhoods c7Data).attentionCutoff = 213/4 ∧
       (analyzeNeighborhoods c7Data).needsAttention.length = 2 ∧
       (analyzeNeighborhoods c7Data).equityAssessment = "concern".toList) := by
  have main : ∀ rawData : List (JStr × NeighborhoodStats), rawData ≠ [] →
      ((analyzeNeighborhoods rawData).needsAttention
        = (rawData.map toEntry).filter
            (fun n => n.responseRate < (analyzeNeighborhoods rawData).avgResponseRate - 10)) ∧
      ((analyzeNeighborhoods rawData).equityAssessment = "concern".toList
        ↔ ((analyzeNeighborhoods rawData).totalNeighborhoods : ℚ) * (4/10)
            < ((analyzeNeighborhoods rawData).needsAttention.length : ℚ)) ∧
      ((analyzeNeighborhoods rawData).equityAssessment = "excellent".toList
        ↔ (analyzeNeighborhoods rawData).needsAttention.length = 0) ∧
      ((analyzeNeighborhoods rawData).equityAssessment = "moderate".toList
        ↔ 0 < (analyzeNeighborhoods rawData).needsAttention.length ∧
          ¬ (((analyzeNeighborhoods rawData).totalNeighborhoods : ℚ) * (4/10)
              < ((analyzeNeighborhoods rawData).needsAttention.length : ℚ))) := by
    intro rawData h
    refine ⟨needsAttention_unclamped rawData, ?_, ?_, ?_⟩ <;>
      rw [equity_of_counts rawData h] <;>
        by_cases h1 : 0 < (analyzeNeighborhoods rawData).needsAttention.length
    · rw [if_pos h1]
      by_cases h2 : ((analyzeNeighborhoods rawData).totalNeighborhoods : ℚ) * (4/10)
          < ((analyzeNeighborhoods rawData).needsAttention.length : ℚ)
      · rw [if_pos h2]
        simp [h2]
      · rw [if_neg h2]
        simp only [h2, iff_false]
        decide
    · rw [if_neg h1]
      simp only [Nat.not_lt, Nat.le_zero] at h1
      constructor
      · intro hcon
        exact absurd hcon (by decide)
      · intro hcon
        rw [h1] at hcon
        push_cast at hcon
        have := (analyzeNeighborhoods rawData).totalNeighborhoods.cast_nonneg (α := ℚ)
        nlinarith
    · rw [if_pos h1]
      by_cases h2 : ((analyzeNeighborhoods rawData).totalNeighborhoods : ℚ) * (4/10)
          < ((analyzeNeighborhoods rawData).needsAttention.length : ℚ)
      · rw [if_pos h2]
        constructor
        · intro hcon
          exact absurd hcon (by decide)
        · intro hcon
          rw [hcon] at h1
          exact absurd h1 (by norm_num)
      · rw [if_neg h2]
        constructor
        · intro hcon
          exact absurd hcon (by decide)
        · intro hcon
          rw [hcon] at h1
          exact absurd h1 (by norm_num)
    · rw [if_neg h1]
      simp only [Nat.not_lt, Nat.le_zero] at h1
      simp [h1]
    · rw [if_pos h1]
      by_cases h2 : ((analyzeNeighborhoods rawData).totalNeighborhoods : ℚ) * (4/10)
          < ((analyzeNeighborhoods rawData).needsAttention.length : ℚ)
      · rw [if_pos h2]
        constructor
        · intro hcon
          exact absurd hcon (by decide)
        · intro hcon
          exact absurd h2 hcon.2
      · rw [if_neg h2]
        simp [h1, h2]
    · rw [if_neg h1]
      simp only [Nat.not_lt, Nat.le_zero] at h1
      constructor
      · intro hcon
        exact absurd hcon (by decide)
      · intro hcon
        rw [h1] at hcon
        exact absurd hcon.1 (by norm_num)
  have hne : c7Data ≠ [] := by
    unfold c7Data
    exact List.cons_ne_nil _ _
  have htot : (analyzeNeighborhoods c7Data).totalNeighborhoods = 4 := by
    unfold analyzeNeighborhoods
    simp [c7Data]
  have hconcern : (analyzeNeighborhoods c7Data).equityAssessment = "concern".toList := by
    rw [((main c7Data hne).2.1), htot, c7_needsAttention_len]
    norm_num
  exact ⟨main, by rw [avgResponseRate_eq, c7_avg], c7_cutoff, c7_needsAttention_len, hconcern⟩

end MunicipalAnalysisEngine

namespace MunicipalAnalysisEngine

/-- Counterexample to C7 as stated: on an empty record set no neighborhood
falls below the cutoff, yet `equityAssessment` is `unknown`, not
`excellent`. -/
theorem analyzeNeighborhoods_empty_counterexample :
    (analyzeNeighborhoods []).needsAttention = [] ∧
    (analyzeNeighborhoods []).equityAssessment = "unknown".toList ∧
    "unknown".toList ≠ "excellent".toList := by
  refine ⟨rfl, rfl, by decide⟩

/-- Concrete instantiation of `analyzeNeighborhoods_spec` on the nonempty
fixture. -/
theorem analyzeNeighborhoods_spec_witness :
    (analyzeNeighborhoods c7Data).needsAttention
      = (c7Data.map toEntry).filter
          (fun n => n.responseRate < (analyzeNeighborhoods c7Data).avgResponseRate - 10) ∧
    (analyzeNeighborhoods c7Data).equityAssessment = "concern".toList := by
  have h := analyzeNeighborhoods_spec.1 c7Data (by
    unfold c7Data
    exact List.cons_ne_nil _ _)
  exact ⟨h.1, analyzeNeighborhoods_spec.2.2.2.2⟩

/-- C10 (amended): the `needsAttention` cutoff is clamped at zero, so a mean
response rate ≤ 10 always yields an empty `needsAttention` list; the equity
verdict is computed from the unclamped mean − 10 threshold inside
`generateNeighborhoodInsights`, but since response rates are nonnegative the
two criteria select the same rows: for nonempty data an empty
`needsAttention` list DOES imply equity `excellent` (empty data yields
`unknown`). -/
theorem needsAttention_clamp_spec :
    (∀ rawData : List (JStr × NeighborhoodStats),
      (analyzeNeighborhoods rawData).attentionCutoff
        = max 0 ((analyzeNeighborhoods rawData).avgResponseRate - 10)) ∧
    (∀ rawData : List (JStr × NeighborhoodStats),
      (analyzeNeighborhoods rawData).avgResponseRate ≤ 10 →
      (analyzeNeighborhoods rawData).needsAttention = []) ∧
    (∀ rawData : List (JStr × NeighborhoodStats), rawData ≠ [] →
      (analyzeNeighborhoods rawData).needsAttention = [] →
      (analyzeNeighborhoods rawData).equityAssessment = "excellent".toList) ∧
    ((analyzeNeighborhoods []).equityAssessment = "unknown".toList) := by
  refine ⟨?_, ?_, ?_, rfl⟩
  · intro rawData
    unfold analyzeNeighborhoods
    simp only
  · intro rawData havg
    rw [needsAttention_unclamped]
    rw [List.filter_eq_nil_iff]
    intro n hn
    simp only [decide_eq_true_eq, not_lt]
    have h0 : 0 ≤ n.responseRate := mem_map_toEntry_nonneg rawData n hn
    linarith
  · intro rawData hne hnil
    rw [equity_of_counts rawData hne, hnil]
    simp

/-- Counterexample to C10's final assertion: there is no nonempty record set
on which `needsAttention` is empty while the equity verdict is not
`excellent` — the clamped and unclamped criteria never disagree on
nonnegative rates. -/
theorem needsAttention_clamp_counterexample :
    ¬ ∃ rawData : List (JStr × NeighborhoodStats), rawData ≠ [] ∧
      (analyzeNeighborhoods rawData).needsAttention = [] ∧
      (analyzeNeighborhoods rawData).equityAssessment ≠ "excellent".toList := by
  rintro ⟨rawData, hne, hnil, hcon⟩
  apply hcon
  rw [equity_of_counts rawData hne, hnil]
  simp

/-- A one-neighborhood record set with response rate exactly 10. -/
def c10Data : List (JStr × NeighborhoodStats) :=
  [("A".toList, { total := 10, sent := 0, clicked := 0, answered := 1 })]

/-- Concrete instantiation of `needsAttention_clamp_spec`: mean 10 ≤ 10 gives
an empty `needsAttention`, and then the equity verdict is `excellent`. -/
theorem needsAttention_clamp_spec_witness :
    (analyzeNeighborhoods c10Data).needsAttention = [] ∧
    (analyzeNeighborhoods c10Data).equityAssessment = "excellent".toList := by
  have havg : (analyzeNeighborhoods c10Data).avgResponseRate ≤ 10 := by
    rw [avgResponseRate_eq]
    unfold avgResponseOf
    simp only [c10Data, List.map_cons, List.map_nil, toEntry, responseRateOf]
    norm_num
  have h1 := needsAttention_clamp_spec.2.1 c10Data havg
  have h2 := needsAttention_clamp_spec.2.2.1 c10Data (by
    unfold c10Data
    exact List.cons_ne_nil _ _) h1
  exact ⟨h1, h2⟩

end MunicipalAnalysisEngine
